import Mathlib

/-!
Verification of the reconciliation layer of the snap state module
(`src/saltext/snap/states/snap_mod.py`).

Each public state function is shallowly embedded as a pure Lean function.
The external provider (the `snap.*` execution module) is modelled as an
environment record holding the results of each query the function performs:
queries made before a mutation and queries made after a mutation are
separate environment fields, because the live system may change in between.
Mutating provider calls are not interpreted; instead every operation
returns, alongside its Salt-style result dictionary, the ordered list of
mutating calls it made (`List Mut`), so non-mutation properties are
statements about that list being empty.

Salt specifics kept by the model:
* a state returns a dictionary with `result` `True`/`None`/`False`
  (here `Option Bool`: `some true` / `none` / `some false`), a `comment`
  string and a `changes` mapping (one dedicated Lean type per operation);
* `CommandExecutionError` / `SaltInvocationError` are modelled by a single
  `Err` type carrying the message; the code distinguishes "snap is not
  installed" errors by substring matching on the message, which is modelled
  by `Err.notInstalled`;
* each function body is a `...Core` function returning `Except`; the
  top-level `except (CommandExecutionError, SaltInvocationError)` handler of
  the source is the plain wrapper around it.
-/

set_option maxRecDepth 8000

namespace Snap

/-- The substring test `needle ∈ hay` on strings, as a proposition on the
underlying character lists. -/
def strHasSub (hay needle : String) : Prop := needle.toList <:+: hay.toList

instance (hay needle : String) : Decidable (strHasSub hay needle) :=
  List.decidableInfix needle.toList hay.toList

/-- An exception raised by an execution-module call (`CommandExecutionError`
or `SaltInvocationError`); only the message is observable to the state code. -/
structure Err where
  msg : String
deriving DecidableEq

/-- The `"is not installed" in str(err)` test the state module uses to
recognise a missing snap. -/
def Err.notInstalled (e : Err) : Bool := decide (strHasSub e.msg "is not installed")

/-- The suffix appended to warning comments in test mode. -/
def warnSuffix : String := " - if we weren't testing, this would be an error"

/-- A Salt state return dictionary: `name`, `result` (True/None/False),
`comment`, and an operation-specific `changes` mapping. -/
structure SRet (χ : Type) where
  name : String
  result : Option Bool
  comment : String
  changes : χ
deriving DecidableEq

/-- One established connection, as reported by `snap.connections`; only the
fields the state module reads are modelled. -/
structure Conn where
  plugSnap : String
  plugPlug : String
  slotSnap : String
  slotSlot : String
deriving DecidableEq

/-- A mutating execution-module call. Operations return the ordered list of
these calls they performed. -/
inductive Mut
  | connect (snap plug target : String)
  | disconnect (snap connector : String) (target : Option String)
  | enable (snap : String)
  | disable (snap : String)
  | install (name : String) (channel : Option String) (revision : Option String)
      (classic : Bool) (refresh : Bool)
  | hold (name : String)
  | unhold (name : String)
  | remove (name : String) (purge : Bool)
  | ack (assertions : String)
  | option_set (snap opt : String) (value : Option String)
  | option_unset (snap opt : String)
  | service_start (serv : String) (enable : Option Bool)
  | service_stop (serv : String) (disable : Option Bool)
deriving DecidableEq

/-- `"\n".join`-style joining used when aggregating fan-out errors. -/
def joinWith (sep : String) : List String → String
  | [] => ""
  | [x] => x
  | x :: y :: rest => x ++ sep ++ joinWith sep (y :: rest)

/-- First-occurrence deduplication; models iteration over a Python `set`
built from a list (the model fixes the iteration order to first occurrence). -/
def dedupF [DecidableEq α] : List α → List α
  | [] => []
  | x :: xs => x :: (dedupF xs).filter (· ≠ x)

/-- Python string truthiness of an optional argument (`None` and `""` are falsy). -/
def strTruthy : Option String → Bool
  | none => false
  | some s => s ≠ ""

/-- `s.endswith(suffix)`, computed on the character lists (the built-in
`String.endsWith` is not kernel-reducible). -/
def strEndsWith (s suffix : String) : Bool := suffix.toList.isSuffixOf s.toList

/-- `s.split(":", maxsplit=1)` unpacked into two parts, on the character list.
Only called on strings containing a colon. -/
def splitColonL : List Char → List Char × List Char
  | [] => ([], [])
  | c :: cs => if c = ':' then ([], cs) else
      let p := splitColonL cs
      (c :: p.1, p.2)

/-- `s.split(":", maxsplit=1)` unpacked into `(head, rest)`. -/
def splitColon1 (s : String) : String × String :=
  let p := splitColonL s.toList
  (⟨p.1⟩, ⟨p.2⟩)

/-- `":" in s`. -/
def hasColon (s : String) : Bool := s.toList.any (· = ':')

/-- Membership test of an established connection matching
plug `connector` and slot `tsnap:tslot`, as looped over in `connected`. -/
def connFind (conns : List Conn) (connector tsnap tslot : String) : Bool :=
  conns.any fun c => c.plugPlug = connector ∧ c.slotSnap = tsnap ∧ c.slotSlot = tslot

/-- Environment for `connected`: results of the queries it can make.
`plugIface` is `snap.plugs(name)[connector]["interface"]` (`.ok none` models
the `KeyError` on a missing plug); `slotsQ` is `snap.slots(target, interface)`
as the list of matching slot names; `connsQ` / `connsPost` are
`snap.connections(name)` before / after the `snap.connect` call. -/
structure ConnEnv where
  plugIface : Except Err (Option String)
  slotsQ : Except Err (List String)
  connsQ : Except Err (List Conn)
  connsPost : Except Err (List Conn)

/-- The target-resolution stage of `connected` (`target` defaulting, the
fully-qualified shortcut, and the bare-peer slot lookup). Returns the
resolved `snap:slot` string, or an early warning return (test mode, target
snap not installed), or the raised error. -/
def connResolve (name connector : String) (target? : Option String) (test : Bool)
    (env : ConnEnv) (base : SRet (Option String)) :
    Except (Err × List Mut) (Except (SRet (Option String)) String) :=
  match target? with
  | none => .ok (.ok ("core:" ++ connector))
  | some t =>
    if hasColon t then .ok (.ok t)
    else
      match env.plugIface with
      | .error e => .error (e, [])
      | .ok none =>
        .error (⟨"The snap '" ++ name ++ "' does not have a plug named '" ++
          connector ++ "'"⟩, [])
      | .ok (some iface) =>
        match env.slotsQ with
        | .error e =>
          if ¬ e.notInstalled ∨ ¬ test then .error (e, [])
          else .ok (.error { base with result := none, comment := e.msg ++ warnSuffix })
        | .ok slots =>
          if slots.length ≠ 1 then
            .error (⟨"The target snap '" ++ t ++
              "' does not expose exactly one slot with interface type '" ++ iface ++
              "', but " ++ toString slots.length⟩, [])
          else .ok (.ok (t ++ ":" ++ slots.headD ""))

/-- Body of the `try` block of the state function `connected`.
Changes mapping: `some t` models `{"connected": t}`, `none` models `{}`. -/
def connectedCore (name connector : String) (target? : Option String) (test : Bool)
    (env : ConnEnv) : Except (Err × List Mut) (SRet (Option String) × List Mut) :=
  let base : SRet (Option String) :=
    ⟨name, some true, "The connection is already established", none⟩
  match connResolve name connector target? test env base with
  | .error em => .error em
  | .ok (.error early) => .ok (early, [])
  | .ok (.ok target) =>
    match env.connsQ with
    | .error e =>
      if ¬ e.notInstalled ∨ ¬ test then .error (e, [])
      else .ok ({ base with result := none, comment := e.msg ++ warnSuffix }, [])
    | .ok curr =>
      let ts := splitColon1 target
      if connFind curr connector ts.1 ts.2 then .ok (base, [])
      else if test then
        .ok ({ base with
                 result := none,
                 comment := "Would have connected plug " ++ name ++ ":" ++ connector ++
                   " to slot " ++ ts.1 ++ ":" ++ ts.2,
                 changes := some (ts.1 ++ ":" ++ ts.2) }, [])
      else
        let ms := [Mut.connect name connector target]
        match env.connsPost with
        | .error e => .error (e, ms)
        | .ok currNew =>
          if connFind currNew connector ts.1 ts.2 then
            .ok ({ base with
                     comment := "Connected plug " ++ name ++ ":" ++ connector ++
                       " to slot " ++ ts.1 ++ ":" ++ ts.2,
                     changes := some (ts.1 ++ ":" ++ ts.2) }, ms)
          else .error (⟨"Tried to connect the plug, but the connection is not reported"⟩, ms)

/-- The state function `connected`, with its top-level exception handler
(result `False`, comment = message, changes cleared). -/
def connected (name connector : String) (target? : Option String) (test : Bool)
    (env : ConnEnv) : SRet (Option String) × List Mut :=
  match connectedCore name connector target? test env with
  | .ok r => r
  | .error (e, ms) => (⟨name, some false, e.msg, none⟩, ms)

/-- `conn[side]["snap"]` and `conn[side][side]` for `side ∈ {"plug", "slot"}`. -/
def Conn.side (c : Conn) (s : String) : String × String :=
  if s = "plug" then (c.plugSnap, c.plugPlug) else (c.slotSnap, c.slotSlot)

/-- The filter loop of `disconnected` over `curr["established"]`: connections
whose `this` side is `name:connector` and (when a target is given) whose
`typ` side matches it; collects the `typ` side endpoints. -/
def discMatches (conns : List Conn) (name connector this typ : String)
    (tgt? : Option (String × String)) : List (String × String) :=
  (conns.filter fun c =>
      decide ((c.side this).1 = name) && decide ((c.side this).2 = connector) &&
        match tgt? with
        | none => true
        | some te => decide ((c.side typ).1 = te.1) && decide ((c.side typ).2 = te.2)).map
    fun c => c.side typ

/-- `"snap:entity"` formatting of one disconnect target. -/
def fmtPair (p : String × String) : String := p.1 ++ ":" ++ p.2

/-- Environment for `disconnected`. `plugsQ` / `slotsQ` are the truthiness of
`snap.plugs(name, connector)` / `snap.slots(name, connector)`; `connsQ` /
`connsQ2` are `snap.connections(name)` before / after `snap.disconnect`. -/
structure DiscEnv where
  plugsQ : Except Err Bool
  slotsQ : Except Err Bool
  connsQ : Except Err (List Conn)
  connsQ2 : Except Err (List Conn)

/-- Changes mapping of `disconnected`: `some (k, l)` models
`{"disconnected": {k: l}}` where `k` is `"plugs"` or `"slots"`. -/
abbrev DiscChanges := Option (String × List String)

/-- The side-detection stage of `disconnected`: whether `name:connector` is a
plug (peers are slots) or a slot (peers are plugs); `none` when neither. -/
def discSideOf (env : DiscEnv) : Except Err (Option (String × String)) :=
  match env.plugsQ with
  | .error e => .error e
  | .ok true => .ok (some ("slot", "plug"))
  | .ok false =>
    match env.slotsQ with
    | .error e => .error e
    | .ok true => .ok (some ("plug", "slot"))
    | .ok false => .ok none

/-- The target filter of `disconnected`: `target.split(":", 1)` when a truthy
target is given. -/
def discTgt (target? : Option String) : Option (String × String) :=
  match target? with
  | some t => if t ≠ "" then some (splitColon1 t) else none
  | none => none

/-- Body of the `try` block of the state function `disconnected`. -/
def disconnectedCore (name connector : String) (target? : Option String) (test : Bool)
    (env : DiscEnv) : Except (Err × List Mut) (SRet DiscChanges × List Mut) :=
  let base : SRet DiscChanges := ⟨name, some true, "The connection is already cut", none⟩
  match discSideOf env with
  | .error e =>
    if ¬ e.notInstalled ∨ ¬ test then .error (e, [])
    else .ok ({ base with result := none, comment := e.msg ++ warnSuffix }, [])
  | .ok none => .error (⟨"The snap carries neither a slot nor a plug with this name"⟩, [])
  | .ok (some tt) =>
    let typ := tt.1
    let this := tt.2
    match env.connsQ with
    | .error e => .error (e, [])
    | .ok curr =>
      let tgt? := discTgt target?
      let disconnect := discMatches curr name connector this typ tgt?
      if disconnect = [] then .ok (base, [])
      else if test then
        .ok ({ base with
                 result := none,
                 comment := "Would have disconnected some " ++ typ ++ "s",
                 changes := some (typ ++ "s", disconnect.map fmtPair) }, [])
      else
        let ms := [Mut.disconnect name connector target?]
        match env.connsQ2 with
        | .error e => .error (e, ms)
        | .ok currNew =>
          let still := discMatches currNew name connector this typ tgt?
          let actually := (dedupF disconnect).filter (· ∉ still)
          let changes1 : DiscChanges :=
            if actually ≠ [] then some (typ ++ "s", actually.map fmtPair) else none
          if still ≠ [] then
            .ok ({ base with
                     result := some false,
                     comment := "Tried to disconnect some " ++ typ ++
                       "s, but some connections remained",
                     changes := changes1 }, ms)
          else
            .ok ({ base with
                     comment := "Disconnected some " ++ typ ++ "s",
                     changes := changes1 }, ms)

/-- The state function `disconnected`, with its top-level exception handler. -/
def disconnected (name connector : String) (target? : Option String) (test : Bool)
    (env : DiscEnv) : SRet DiscChanges × List Mut :=
  match disconnectedCore name connector target? test env with
  | .ok r => r
  | .error (e, ms) => (⟨name, some false, e.msg, none⟩, ms)

/-- Environment for `enabled`/`disabled`: `snap.is_enabled(name)` before and
after the toggle call. -/
structure ToggleEnv where
  isEnabledPre : Except Err Bool
  isEnabledPost : Except Err Bool

/-- Body of the `try` block of the state function `enabled`.
Changes mapping: `some n` models `{"enabled": n}`. -/
def enabledCore (name : String) (test : Bool) (env : ToggleEnv) :
    Except (Err × List Mut) (SRet (Option String) × List Mut) :=
  let base : SRet (Option String) := ⟨name, some true, "The snap is already enabled", none⟩
  match env.isEnabledPre with
  | .error e =>
    if ¬ e.notInstalled ∨ ¬ test then .error (e, [])
    else .ok ({ base with result := none, comment := e.msg ++ warnSuffix }, [])
  | .ok b =>
    if b then .ok (base, [])
    else if test then
      .ok ({ base with
               result := none,
               comment := "Would have enabled the snap",
               changes := some name }, [])
    else
      let ms := [Mut.enable name]
      match env.isEnabledPost with
      | .error e => .error (e, ms)
      | .ok b2 =>
        if ¬ b2 then .error (⟨"Tried to enable the snap, but it is still disabled"⟩, ms)
        else .ok ({ base with comment := "Enabled the snap", changes := some name }, ms)

/-- The state function `enabled`, with its top-level exception handler. -/
def enabled (name : String) (test : Bool) (env : ToggleEnv) :
    SRet (Option String) × List Mut :=
  match enabledCore name test env with
  | .ok r => r
  | .error (e, ms) => (⟨name, some false, e.msg, none⟩, ms)

/-- Body of the `try` block of the state function `disabled`.
Changes mapping: `some n` models `{"disabled": n}`. -/
def disabledCore (name : String) (test : Bool) (env : ToggleEnv) :
    Except (Err × List Mut) (SRet (Option String) × List Mut) :=
  let base : SRet (Option String) := ⟨name, some true, "The snap is already disabled", none⟩
  match env.isEnabledPre with
  | .error e =>
    if ¬ e.notInstalled ∨ ¬ test then .error (e, [])
    else .ok ({ base with result := none, comment := e.msg ++ warnSuffix }, [])
  | .ok b =>
    if ¬ b then .ok (base, [])
    else if test then
      .ok ({ base with
               result := none,
               comment := "Would have disabled the snap",
               changes := some name }, [])
    else
      let ms := [Mut.disable name]
      match env.isEnabledPost with
      | .error e => .error (e, ms)
      | .ok b2 =>
        if b2 then .error (⟨"Tried to disable the snap, but it is still enabled"⟩, ms)
        else .ok ({ base with comment := "Disabled the snap", changes := some name }, ms)

/-- The state function `disabled`, with its top-level exception handler. -/
def disabled (name : String) (test : Bool) (env : ToggleEnv) :
    SRet (Option String) × List Mut :=
  match disabledCore name test env with
  | .ok r => r
  | .error (e, ms) => (⟨name, some false, e.msg, none⟩, ms)

/-- Environment for `removed`: truthiness of `snap.list(name)` before and
after `snap.remove`. -/
structure RemoveEnv where
  listPre : Except Err Bool
  listPost : Except Err Bool

/-- Body of the `try` block of the state function `removed`.
Changes mapping: `some n` models `{"removed": n}`. -/
def removedCore (name : String) (purge : Bool) (test : Bool) (env : RemoveEnv) :
    Except (Err × List Mut) (SRet (Option String) × List Mut) :=
  let base : SRet (Option String) := ⟨name, some true, "The snap is already absent", none⟩
  match env.listPre with
  | .error e => .error (e, [])
  | .ok present =>
    if ¬ present then .ok (base, [])
    else if test then
      .ok ({ base with
               result := none,
               comment := "Would have removed the snap",
               changes := some name }, [])
    else
      let ms := [Mut.remove name purge]
      match env.listPost with
      | .error e => .error (e, ms)
      | .ok present2 =>
        if present2 then .error (⟨"Tried to remove the snap, but it is still present"⟩, ms)
        else .ok ({ base with comment := "Removed the snap", changes := some name }, ms)

/-- The state function `removed`, with its top-level exception handler. -/
def removed (name : String) (purge : Bool) (test : Bool) (env : RemoveEnv) :
    SRet (Option String) × List Mut :=
  match removedCore name purge test env with
  | .ok r => r
  | .error (e, ms) => (⟨name, some false, e.msg, none⟩, ms)

/-- `"key": value` inside a JSON object rendering. -/
def jsonPair (p : String × String) : String := "\"" ++ p.1 ++ "\": " ++ p.2

/-- A JSON object rendering (models `json.dumps` of a string-keyed dict;
value rendering fidelity is not relied upon, key presence is). -/
def jsonObj (ps : List (String × String)) : String :=
  "\x7b" ++ joinWith ", " (ps.map jsonPair) ++ "\x7d"

/-- JSON string quoting (escape fidelity is not relied upon). -/
def quoteS (s : String) : String := "\"" ++ s ++ "\""

/-- JSON rendering of an optional string value. -/
def jsonOptS : Option String → String
  | none => "null"
  | some s => quoteS s

/-- JSON rendering of a bool. -/
def jsonBool (b : Bool) : String := if b then "true" else "false"

/-- `str.capitalize` on the verb (`"modified"` / `"installed"`). -/
def capitalize (s : String) : String :=
  match s.toList with
  | [] => ""
  | c :: cs => ⟨c.toUpper :: cs⟩

/-- One row of `snap.list(name)`: the fields `installed` reads. -/
structure SnapInfo where
  channel : String
  revision : String
  held : Bool
deriving DecidableEq

/-- The changes dict built by `installed`: at most the keys `installed`,
`channel`, `held`, `revision` (in that key order for `json.dumps`). -/
structure InstChanges where
  installed : Option String := none
  channel : Option (String × String) := none
  held : Option (Bool × Bool) := none
  revision : Option (String × String) := none
deriving DecidableEq

/-- `not changes` on the `installed` changes dict. -/
def InstChanges.isEmpty (c : InstChanges) : Bool :=
  c.installed.isNone && c.channel.isNone && c.held.isNone && c.revision.isNone

/-- Key/value pairs of the changes dict, in insertion order (`channel`,
`held`, `revision` as emitted by `_check_changes`; `installed` only ever
occurs alone). -/
def InstChanges.pairs (c : InstChanges) : List (String × String) :=
  (match c.installed with
   | some n => [("installed", quoteS n)]
   | none => []) ++
  (match c.channel with
   | some ov => [("channel", jsonObj [("old", quoteS ov.1), ("new", quoteS ov.2)])]
   | none => []) ++
  (match c.held with
   | some ov => [("held", jsonObj [("old", jsonBool ov.1), ("new", jsonBool ov.2)])]
   | none => []) ++
  (match c.revision with
   | some ov => [("revision", jsonObj [("old", quoteS ov.1), ("new", quoteS ov.2)])]
   | none => [])

/-- The keys of the changes dict, in insertion order. -/
def InstChanges.keys (c : InstChanges) : List String := c.pairs.map Prod.fst

/-- `ret["changes"].pop(change, None)` for every key of `resid`:
drops from `c` every field present in `resid`. -/
def InstChanges.prune (c resid : InstChanges) : InstChanges where
  installed := if resid.installed.isSome then none else c.installed
  channel := if resid.channel.isSome then none else c.channel
  held := if resid.held.isSome then none else c.held
  revision := if resid.revision.isSome then none else c.revision

/-- Python truthiness of the optional `channel` argument. -/
def chTruthy : Option String → Bool
  | none => false
  | some s => s ≠ ""

/-- `_check_changes(curr, isfile)` of `installed`, together with the
`nonlocal revision` update: returns the changes dict and the resolved
revision. `upgQ` is `snap.list_upgrades()` restricted to this snap
(`some r` when an upgrade to revision `r` is available, `none` otherwise),
queried only when `revision == "latest"` and not a file install. -/
def instCheckChanges (channel? revision? : Option String) (held? : Option Bool)
    (upgQ : Except Err (Option String)) (cur : SnapInfo) (isfile : Bool) :
    Except Err (InstChanges × Option String) :=
  if isfile then
    match revision? with
    | some r =>
      if cur.revision ≠ r then .ok ({ revision := some (cur.revision, r) }, revision?)
      else .ok ({}, revision?)
    | none => .ok ({}, none)
  else
    let c1 : InstChanges :=
      match channel? with
      | some ch => if ch ≠ "" ∧ cur.channel ≠ ch then { channel := some (cur.channel, ch) } else {}
      | none => {}
    let revR : Except Err (Option String) :=
      if revision? = some "latest" then upgQ else .ok revision?
    match revR with
    | .error e => .error e
    | .ok rev =>
      let c2 : InstChanges :=
        match held? with
        | some h => if cur.held ≠ h then { c1 with held := some (cur.held, h) } else c1
        | none => c1
      let c3 : InstChanges :=
        match rev with
        | some r => if cur.revision ≠ r then { c2 with revision := some (cur.revision, r) } else c2
        | none => c2
      .ok (c3, rev)

/-- `snap.info(name, verbose=True)` restricted to the fields `installed`
reads for a local `.snap` file. -/
structure FileInfo where
  snapName : String
deriving DecidableEq

/-- Environment for `installed`. The `path*`/`info*`/`known*` fields are only
consulted for a `.snap` file install; `knownQ` / `knownQ2` are the
`snap-revision` values found by `snap.known` before / after `snap.ack`;
`listPre` / `listPost` are `snap.list(snap_name)` before / after the apply;
`upgQ` / `upgQ2` are the available-upgrade queries of the two
`_check_changes` invocations. -/
structure InstEnv where
  pathAbsolute : Bool
  pathExists : Bool
  infoQ : Except Err FileInfo
  knownQ : Except Err (List String)
  knownQ2 : Except Err (List String)
  listPre : Except Err (Option SnapInfo)
  upgQ : Except Err (Option String)
  listPost : Except Err (Option SnapInfo)
  upgQ2 : Except Err (Option String)

/-- The `.snap`-file preamble of `installed`: path validation, `snap.info`,
assertion lookup (`snap.known`), optional `snap.ack` import, and the pinned
revision extraction. For a store snap it passes the arguments through.
Returns an early warning return, or `(snap_name, revision, muts)`. -/
def installedStage1 (name : String) (revision? : Option String)
    (assertions? : Option String) (test : Bool) (env : InstEnv) (base : SRet InstChanges)
    (isfile : Bool) :
    Except (Err × List Mut) (Except (SRet InstChanges) (String × Option String × List Mut)) :=
  if ¬ isfile then .ok (.ok (name, revision?, []))
  else if ¬ env.pathAbsolute then
    .error (⟨"Specified path '" ++ name ++ "' is not absolute"⟩, [])
  else if ¬ env.pathExists then
    let msg := "Specified path '" ++ name ++ "' does not exist"
    if test then
      .ok (.error { base with
                      result := none,
                      comment := msg ++ ". If we weren't testing, ths would be an error" })
    else .error (⟨msg⟩, [])
  else
    match env.infoQ with
    | .error e => .error (e, [])
    | .ok fi =>
      match env.knownQ with
      | .error e => .error (e, [])
      | .ok (r :: _) => .ok (.ok (fi.snapName, some r, []))
      | .ok [] =>
        if test then
          if strTruthy assertions? then
            .ok (.error { base with
                            result := none,
                            comment := "Would have imported assertions and installed the snap",
                            changes := { installed := some name } })
          else
            .ok (.error { base with
                            result := none,
                            comment := "Missing assertions. If we weren't testing, this would be an error" })
        else if ¬ strTruthy assertions? then
          .error (⟨"Missing assertions, either import them or pass the assertions file in `assertions`"⟩, [])
        else
          let ms := [Mut.ack (assertions?.getD "")]
          match env.knownQ2 with
          | .error e => .error (e, ms)
          | .ok [] => .error (⟨"Imported assertions, but still could not find snap-revision"⟩, ms)
          | .ok (r :: _) => .ok (.ok (fi.snapName, some r, ms))

/-- The verb of `installed` result comments: `modified` when the snap was
present, `installed` when absent. -/
def instVerb (curr? : Option SnapInfo) : String :=
  match curr? with | some _ => "modified" | none => "installed"

/-- The diff dispatch of `installed`: `_check_changes` on the installed row,
or `{"installed": name}` when the snap is absent. -/
def instDiff (name : String) (channel? revision? : Option String) (held? : Option Bool)
    (upgQ : Except Err (Option String)) (curr? : Option SnapInfo) (isfile : Bool) :
    Except Err (InstChanges × Option String) :=
  match curr? with
  | some cur => instCheckChanges channel? revision? held? upgQ cur isfile
  | none => .ok ({ installed := some name }, revision?)

/-- Body of the `try` block of the state function `installed`. -/
def installedCore (name : String) (channel? revision? : Option String) (classic : Bool)
    (held? : Option Bool) (assertions? : Option String) (test : Bool) (env : InstEnv) :
    Except (Err × List Mut) (SRet InstChanges × List Mut) :=
  let base : SRet InstChanges :=
    ⟨name, some true, "The snap is already installed as specified", {}⟩
  let isfile := strEndsWith name ".snap"
  match installedStage1 name revision? assertions? test env base isfile with

  | .error em => .error em
  | .ok (.error early) => .ok (early, [])
  | .ok (.ok st) =>
    let rev0 := st.2.1
    let ms0 := st.2.2
    match env.listPre with
    | .error e => .error (e, ms0)
    | .ok curr? =>
      let verb := instVerb curr?
      match instDiff name channel? rev0 held? env.upgQ curr? isfile with
      | .error e => .error (e, ms0)
      | .ok ch =>
        let changes := ch.1
        let rev1 := ch.2
        if changes.isEmpty then .ok (base, ms0)
        else if test then
          .ok ({ base with
                   result := none,
                   comment := "Would have " ++ verb ++ " the snap",
                   changes := changes }, ms0)
        else
          let heldChange := changes.held
          let changes1 : InstChanges := { changes with held := none }
          let step1 : InstChanges × List Mut :=
            if ¬ changes1.isEmpty then
              (changes1, ms0 ++ [Mut.install name channel? (if isfile then none else rev1)
                classic (curr?.isSome && ¬ isfile)])
            else ({}, ms0)
          let step2 : InstChanges × List Mut :=
            match heldChange with
            | some hc =>
              ({ step1.1 with held := some hc },
               step1.2 ++ [if held? = some true then Mut.hold name else Mut.unhold name])
            | none => step1
          match env.listPost with
          | .error e => .error (e, step2.2)
          | .ok none =>
            .error (⟨capitalize verb ++ " the snap, but it could not be found afterwards"⟩, step2.2)
          | .ok (some newCur) =>
            match instCheckChanges channel? rev1 held? env.upgQ2 newCur isfile with
            | .error e => .error (e, step2.2)
            | .ok nch =>
              let newChanges := nch.1
              if ¬ newChanges.isEmpty then
                .ok ({ base with
                         result := some false,
                         comment := capitalize verb ++
                           " the snap, but there are still pending changes: " ++
                           jsonObj newChanges.pairs,
                         changes := step2.1.prune newChanges }, step2.2)
              else
                .ok ({ base with
                         comment := capitalize verb ++ " the snap",
                         changes := step2.1 }, step2.2)

/-- The state function `installed`, with its top-level exception handler. -/
def installed (name : String) (channel? revision? : Option String) (classic : Bool)
    (held? : Option Bool) (assertions? : Option String) (test : Bool) (env : InstEnv) :
    SRet InstChanges × List Mut :=
  match installedCore name channel? revision? classic held? assertions? test env with
  | .ok r => r
  | .error (e, ms) => (⟨name, some false, e.msg, {}⟩, ms)

/-- One value of the changes dict built by `option_managed`:
`{old, new}` plus the optional `set`/`unset` classification flags. -/
structure OptChange where
  old : Option String
  new : Option String
  isSet : Bool := false
  isUnset : Bool := false
deriving DecidableEq

/-- Changes mapping of `option_managed`: insertion-ordered association list
of option name to change entry. -/
abbrev OptChanges := List (String × OptChange)

/-- JSON rendering of one option change entry. -/
def OptChange.json (c : OptChange) : String :=
  jsonObj ([("old", jsonOptS c.old), ("new", jsonOptS c.new)] ++
    (if c.isSet then [("set", "true")] else []) ++
    (if c.isUnset then [("unset", "true")] else []))

/-- JSON pairs of the whole options changes dict. -/
def optPairs (cs : OptChanges) : List (String × String) :=
  cs.map fun p => (p.1, p.2.json)

/-- `_check_changes(data)` of `option_managed`: walks the desired options in
order and produces the changes dict plus the `to_set` and `to_unset` lists.
Desired values are `Option String` (`none` is the YAML `null`, i.e. unset);
observed values (`data`) are the currently set options. -/
def optCheckChanges (desired : List (String × Option String))
    (data : List (String × String)) : OptChanges × List String × List String :=
  match desired with
  | [] => ([], [], [])
  | (opt, val) :: rest =>
    let r := optCheckChanges rest data
    match val, data.lookup opt with
    | none, some old =>
      ((opt, ⟨some old, none, false, true⟩) :: r.1, r.2.1, opt :: r.2.2)
    | none, none => r
    | some v, none =>
      ((opt, ⟨none, some v, true, false⟩) :: r.1, opt :: r.2.1, r.2.2)
    | some v, some old =>
      if old ≠ v then ((opt, ⟨some old, some v, false, false⟩) :: r.1, opt :: r.2.1, r.2.2)
      else r

/-- `opt + ": " + err` formatting of one aggregated fan-out error. -/
def fmtErrPair (p : String × String) : String := p.1 ++ ": " ++ p.2

/-- Environment for `option_managed`: `optsQ` / `optsQ2` are
`snap.options(name)` before / after the apply loop; `unsetRes` / `setRes`
give the error raised by `snap.option_unset` / `snap.option_set` for a given
option (or `none` on success). -/
structure OptEnv where
  optsQ : Except Err (List (String × String))
  unsetRes : String → Option Err
  setRes : String → Option Err
  optsQ2 : Except Err (List (String × String))

/-- The `for opt in to_unset` loop of `option_managed`: collects the change
entries written into `ret["changes"]`, the per-option errors, and the
`snap.option_unset` calls made. -/
def optUnsetLoop (name : String) (changes : OptChanges) (res : String → Option Err) :
    List String → OptChanges × List (String × String) × List Mut
  | [] => ([], [], [])
  | opt :: rest =>
    let r := optUnsetLoop name changes res rest
    match res opt with
    | none =>
      ((opt, (changes.lookup opt).getD ⟨none, none, false, false⟩) :: r.1, r.2.1,
        Mut.option_unset name opt :: r.2.2)
    | some e => (r.1, (opt, e.msg) :: r.2.1, Mut.option_unset name opt :: r.2.2)

/-- The `for opt in to_set` loop of `option_managed`. -/
def optSetLoop (name : String) (changes : OptChanges) (res : String → Option Err) :
    List String → OptChanges × List (String × String) × List Mut
  | [] => ([], [], [])
  | opt :: rest =>
    let r := optSetLoop name changes res rest
    let entry := (changes.lookup opt).getD ⟨none, none, false, false⟩
    match res opt with
    | none =>
      ((opt, entry) :: r.1, r.2.1, Mut.option_set name opt entry.new :: r.2.2)
    | some e => (r.1, (opt, e.msg) :: r.2.1, Mut.option_set name opt entry.new :: r.2.2)

/-- Python truthiness of the `options` argument (`None` and `{}` are falsy). -/
def optsTruthy (options? : Option (List (String × Option String))) : Bool :=
  match options? with | some l => ¬ l.isEmpty | none => false

/-- `options = options or {option: value}`: the desired options mapping. -/
def optDesired (option? : Option String) (value? : Option (Option String))
    (options? : Option (List (String × Option String))) : List (String × Option String) :=
  if optsTruthy options? then options?.getD [] else [(option?.getD "", value?.getD none)]

/-- Body of the `try` block of the state function `option_managed`.
Errors carry the changes accumulated so far, because the top-level handler
of `option_managed` does not clear `ret["changes"]`. -/
def option_managedCore (name : String) (option? : Option String)
    (value? : Option (Option String)) (options? : Option (List (String × Option String)))
    (test : Bool) (env : OptEnv) :
    Except (Err × OptChanges × List Mut) (SRet OptChanges × List Mut) :=
  let base : SRet OptChanges := ⟨name, some true, "All options are in the correct state", []⟩
  let single := strTruthy option? && value?.isSome
  if ¬ (single || optsTruthy options?) then
    .error (⟨"Either option and value or options are required"⟩, [], [])
  else if single && optsTruthy options? then
    .error (⟨"Either specify option and value or options, not both variants"⟩, [], [])
  else
    let desired := optDesired option? value? options?
    match env.optsQ with
    | .error e =>
      if ¬ e.notInstalled ∨ ¬ test then .error (e, [], [])
      else .ok ({ base with result := none, comment := e.msg ++ warnSuffix }, [])
    | .ok data =>
      let chk := optCheckChanges desired data
      let changes := chk.1
      let to_set := chk.2.1
      let to_unset := chk.2.2
      if changes = [] then .ok (base, [])
      else if test then
        .ok ({ base with
                 result := none,
                 comment := "Would have modified some options",
                 changes := changes }, [])
      else
        let ru := optUnsetLoop name changes env.unsetRes to_unset
        let rs := optSetLoop name changes env.setRes to_set
        let acc := ru.1 ++ rs.1
        let errs := ru.2.1 ++ rs.2.1
        let muts := ru.2.2 ++ rs.2.2
        if errs ≠ [] then
          .error (⟨"Encountered some errors:\n" ++ joinWith "\n" (errs.map fmtErrPair)⟩,
            acc, muts)
        else
          match env.optsQ2 with
          | .error e => .error (e, acc, muts)
          | .ok data2 =>
            let newChanges := (optCheckChanges desired data2).1
            if newChanges ≠ [] then
              .ok ({ base with
                       result := some false,
                       comment := "Modified some snap options, but there are still " ++
                         "pending changes: " ++ jsonObj (optPairs newChanges),
                       changes := acc.filter fun p => (newChanges.lookup p.1).isNone }, muts)
            else
              .ok ({ base with comment := "Modified some options", changes := acc }, muts)

/-- The state function `option_managed`; its top-level exception handler
keeps the changes accumulated before the error. -/
def option_managed (name : String) (option? : Option String)
    (value? : Option (Option String)) (options? : Option (List (String × Option String)))
    (test : Bool) (env : OptEnv) : SRet OptChanges × List Mut :=
  match option_managedCore name option? value? options? test env with
  | .ok r => r
  | .error (e, cs, ms) => (⟨name, some false, e.msg, cs⟩, ms)

/-- One row of `snap.services(...)`: the two status flags the state reads. -/
structure SvcStatus where
  running : Bool
  enabled : Bool
deriving DecidableEq

/-- `_check_service_changes` after the (non-empty) service query: the list of
services whose running flag differs from `running`, and — when an enabled
target is given — the list whose enabled flag differs from it. -/
def check_service_changes (services : List (String × SvcStatus)) (running : Bool)
    (enabled? : Option Bool) : List String × List String :=
  ((services.filter fun p => p.2.running ≠ running).map Prod.fst,
   match enabled? with
   | none => []
   | some e => (services.filter fun p => p.2.enabled ≠ e).map Prod.fst)

/-- Which predicate a `_timer` call polls. -/
inductive TFun
  | runningQ
  | enabledQ
deriving DecidableEq

/-- One `_timer(func, serv, check_exp, timeout, msg)` invocation, recorded by
the model: polled predicate, service, expected value, timeout budget in
seconds, and failure message. -/
structure TRec where
  fn : TFun
  serv : String
  expect : Bool
  budget : Nat
  msg : String
deriving DecidableEq

/-- The four `_timer` failure messages of the service states. -/
def startRunMsg : String := "Tried to start the snap service, but it is still not running"

/-- Failure message of the enable timer in `service_running`. -/
def startEnMsg : String := "Tried to enable the snap service, but it is still not enabled"

/-- Failure message of the stop timer in `service_dead`. -/
def stopRunMsg : String := "Tried to stop the snap service, but it is still running"

/-- Failure message of the disable timer in `service_dead`. -/
def stopEnMsg : String := "Tried to disable the snap service, but it is still enabled"

/-- Environment for the service states: the `snap.services` query, the error
(if any) raised by `snap.service_start` / `snap.service_stop` per service, and
whether each `_timer` poll reaches the expected running / enabled value within
its budget. -/
structure SvcEnv where
  servicesQ : Except Err (List (String × SvcStatus))
  startRes : String → Option Err
  stopRes : String → Option Err
  runTimerOk : String → Bool
  enTimerOk : String → Bool

/-- Loop accumulator of the service states: primary-action successes
(started / stopped), secondary successes (enabled / disabled), per-service
errors, mutating calls, timer invocations. -/
structure SvcAcc where
  prim : List String := []
  secd : List String := []
  errs : List (String × String) := []
  muts : List Mut := []
  timers : List TRec := []
deriving DecidableEq

/-- One iteration of the `for serv in set(start + enable)` loop of
`service_running`. -/
def svcRunStep (env : SvcEnv) (enabledArg : Option Bool) (start enable : List String)
    (timeout : Nat) (acc : SvcAcc) (serv : String) : SvcAcc :=
  let acc1 := { acc with muts := acc.muts ++ [Mut.service_start serv enabledArg] }
  match env.startRes serv with
  | some e => { acc1 with errs := acc1.errs ++ [(serv, e.msg)] }
  | none =>
    if serv ∈ start then
      let acc2 := { acc1 with timers := acc1.timers ++ [(⟨.runningQ, serv, true, timeout, startRunMsg⟩ : TRec)] }
      if env.runTimerOk serv then
        let acc3 := { acc2 with prim := acc2.prim ++ [serv] }
        if serv ∈ enable then
          let acc4 := { acc3 with timers := acc3.timers ++ [(⟨.enabledQ, serv, true, 1, startEnMsg⟩ : TRec)] }
          if env.enTimerOk serv then { acc4 with secd := acc4.secd ++ [serv] }
          else { acc4 with errs := acc4.errs ++ [(serv, startEnMsg)] }
        else acc3
      else { acc2 with errs := acc2.errs ++ [(serv, startRunMsg)] }
    else
      if serv ∈ enable then
        let acc2 := { acc1 with timers := acc1.timers ++ [(⟨.enabledQ, serv, true, timeout, startEnMsg⟩ : TRec)] }
        if env.enTimerOk serv then { acc2 with secd := acc2.secd ++ [serv] }
        else { acc2 with errs := acc2.errs ++ [(serv, startEnMsg)] }
      else acc1

/-- Changes mapping of `service_running` (`started` / `enabled` keys; `none`
models an absent key). -/
structure SRChanges where
  started : Option (List String) := none
  enabled : Option (List String) := none
deriving DecidableEq

/-- The trailing `for typ in ("enabled", "started")` loop: pops keys holding
empty lists. -/
def srPrune (c : SRChanges) : SRChanges where
  started := match c.started with | some [] => none | x => x
  enabled := match c.enabled with | some [] => none | x => x

/-- Body of the `try` block of the state function `service_running`, up to
the final empty-key popping (which also applies to the handler path and is
therefore part of the wrapper for the error case). Results additionally carry
the mutating calls and the `_timer` invocations made. -/
def service_runningCore (name : String) (service? : Option String) (enabled? : Option Bool)
    (timeout : Nat) (test : Bool) (env : SvcEnv) :
    Except (Err × SRChanges × List Mut × List TRec) (SRet SRChanges × List Mut × List TRec) :=
  let base : SRet SRChanges := ⟨name, some true, "All services are in the correct state", {}⟩
  let enabledArg : Option Bool := if enabled? = some true then some true else none
  match env.servicesQ with
  | .error e => .error (e, {}, [], [])
  | .ok services =>
    if services = [] then
      let msg := "Did not find any service to manage"
      if ¬ test then .error (⟨msg⟩, {}, [], [])
      else .ok ({ base with result := none, comment := msg ++ warnSuffix }, [], [])
    else
      let se := check_service_changes services true enabledArg
      let start := se.1
      let enable := se.2
      if start = [] ∧ enable = [] then .ok (base, [], [])
      else if test then
        .ok ({ base with
                 result := none,
                 comment := "Would have started/enabled some services",
                 changes := { started := if start ≠ [] then some start else none,
                              enabled := if enable ≠ [] then some enable else none } }, [], [])
      else
        let acc := (dedupF (start ++ enable)).foldl
          (svcRunStep env enabledArg start enable timeout) {}
        let changes : SRChanges := { started := some acc.prim, enabled := some acc.secd }
        if acc.errs ≠ [] then
          .error (⟨"Encountered some errors:\n" ++ joinWith "\n" (acc.errs.map fmtErrPair)⟩,
            changes, acc.muts, acc.timers)
        else
          .ok ({ base with
                   comment := "Started/enabled some services",
                   changes := srPrune changes }, acc.muts, acc.timers)

/-- The state function `service_running`: top-level handler keeps the
accumulated changes, then empty change keys are popped. -/
def service_running (name : String) (service? : Option String) (enabled? : Option Bool)
    (timeout : Nat) (test : Bool) (env : SvcEnv) : SRet SRChanges × List Mut × List TRec :=
  match service_runningCore name service? enabled? timeout test env with
  | .ok r => r
  | .error (e, c, ms, ts) => (⟨name, some false, e.msg, srPrune c⟩, ms, ts)

/-- One iteration of the `for serv in set(stop + disable)` loop of
`service_dead`. -/
def svcDeadStep (env : SvcEnv) (disabledArg : Option Bool) (stop disable : List String)
    (timeout : Nat) (acc : SvcAcc) (serv : String) : SvcAcc :=
  let acc1 := { acc with muts := acc.muts ++ [Mut.service_stop serv disabledArg] }
  match env.stopRes serv with
  | some e => { acc1 with errs := acc1.errs ++ [(serv, e.msg)] }
  | none =>
    if serv ∈ stop then
      let acc2 := { acc1 with timers := acc1.timers ++ [(⟨.runningQ, serv, false, timeout, stopRunMsg⟩ : TRec)] }
      if env.runTimerOk serv then
        let acc3 := { acc2 with prim := acc2.prim ++ [serv] }
        if serv ∈ disable then
          let acc4 := { acc3 with timers := acc3.timers ++ [(⟨.enabledQ, serv, false, 1, stopEnMsg⟩ : TRec)] }
          if env.enTimerOk serv then { acc4 with secd := acc4.secd ++ [serv] }
          else { acc4 with errs := acc4.errs ++ [(serv, stopEnMsg)] }
        else acc3
      else { acc2 with errs := acc2.errs ++ [(serv, stopRunMsg)] }
    else
      if serv ∈ disable then
        let acc2 := { acc1 with timers := acc1.timers ++ [(⟨.enabledQ, serv, false, timeout, stopEnMsg⟩ : TRec)] }
        if env.enTimerOk serv then { acc2 with secd := acc2.secd ++ [serv] }
        else { acc2 with errs := acc2.errs ++ [(serv, stopEnMsg)] }
      else acc1

/-- Changes mapping of `service_dead` (`stopped` / `disabled` keys). -/
structure SDChanges where
  stopped : Option (List String) := none
  disabled : Option (List String) := none
deriving DecidableEq

/-- The trailing `for typ in ("disabled", "stopped")` loop of `service_dead`. -/
def sdPrune (c : SDChanges) : SDChanges where
  stopped := match c.stopped with | some [] => none | x => x
  disabled := match c.disabled with | some [] => none | x => x

/-- Body of the `try` block of the state function `service_dead`. -/
def service_deadCore (name : String) (service? : Option String) (disabled? : Option Bool)
    (timeout : Nat) (test : Bool) (env : SvcEnv) :
    Except (Err × SDChanges × List Mut × List TRec) (SRet SDChanges × List Mut × List TRec) :=
  let base : SRet SDChanges := ⟨name, some true, "All services are in the correct state", {}⟩
  let enabledArg : Option Bool := if disabled? = some true then some false else none
  match env.servicesQ with
  | .error e => .error (e, {}, [], [])
  | .ok services =>
    if services = [] then
      let msg := "Did not find any service to manage"
      if ¬ test then .error (⟨msg⟩, {}, [], [])
      else .ok ({ base with result := none, comment := msg ++ warnSuffix }, [], [])
    else
      let se := check_service_changes services false enabledArg
      let stop := se.1
      let disable := se.2
      if stop = [] ∧ disable = [] then .ok (base, [], [])
      else if test then
        .ok ({ base with
                 result := none,
                 comment := "Would have stopped/disabled some services",
                 changes := { stopped := if stop ≠ [] then some stop else none,
                              disabled := if disable ≠ [] then some disable else none } }, [], [])
      else
        let acc := (dedupF (stop ++ disable)).foldl
          (svcDeadStep env disabled? stop disable timeout) {}
        let changes : SDChanges := { stopped := some acc.prim, disabled := some acc.secd }
        if acc.errs ≠ [] then
          .error (⟨"Encountered some errors:\n" ++ joinWith "\n" (acc.errs.map fmtErrPair)⟩,
            changes, acc.muts, acc.timers)
        else
          .ok ({ base with
                   comment := "Stopped/disabled some services",
                   changes := sdPrune changes }, acc.muts, acc.timers)

/-- The state function `service_dead`. -/
def service_dead (name : String) (service? : Option String) (disabled? : Option Bool)
    (timeout : Nat) (test : Bool) (env : SvcEnv) : SRet SDChanges × List Mut × List TRec :=
  match service_deadCore name service? disabled? timeout test env with
  | .ok r => r
  | .error (e, c, ms, ts) => (⟨name, some false, e.msg, sdPrune c⟩, ms, ts)

/-- The poll loop of `_timer`, in an idealised discrete-time model: one tick
is one 0.25-second sleep, predicate evaluation and timeout checks take no
time, so the `k`-th predicate evaluation happens at elapsed time `k` ticks.
`f k` is the predicate value at the `k`-th evaluation; `rem` is the number of
further iterations before `time.time() - start_time > timeout` becomes true:
the strict comparison first succeeds at tick `timeoutTicks + 1`, so the loop
starts with `rem = timeoutTicks + 1`. Returns the number of sleeps performed
before the predicate matched, or the error message. -/
def timerGo (f : Nat → Bool) (checkExp : Bool) (msg : String) :
    Nat → Nat → Except String Nat
  | k, rem =>
    if f k = checkExp then .ok k
    else
      match rem with
      | 0 => .error msg
      | rem' + 1 => timerGo f checkExp msg (k + 1) rem'

/-- `_timer(func, serv, check_exp, timeout, msg)` with `timeout` given in
quarter-second ticks: polls `f` starting at tick 0 and raises `msg` once the
elapsed time strictly exceeds the timeout. -/
def timerModel (f : Nat → Bool) (checkExp : Bool) (timeoutTicks : Nat) (msg : String) :
    Except String Nat :=
  timerGo f checkExp msg 0 (timeoutTicks + 1)

/-! ### Helper lemmas -/

theorem strToList_append (a b : String) : (a ++ b).toList = a.toList ++ b.toList :=
  String.data_append a b

theorem strHasSub_refl (s : String) : strHasSub s s := List.infix_rfl

theorem strHasSub_appendL (a : String) {b n : String} (h : strHasSub b n) :
    strHasSub (a ++ b) n := by
  unfold strHasSub at *
  rw [strToList_append]
  exact h.trans (List.suffix_append a.toList b.toList).isInfix

theorem strHasSub_appendR (b : String) {a n : String} (h : strHasSub a n) :
    strHasSub (a ++ b) n := by
  unfold strHasSub at *
  rw [strToList_append]
  exact h.trans (List.prefix_append a.toList b.toList).isInfix

theorem strHasSub_joinWith (sep : String) {l : List String} {x : String} (hx : x ∈ l) :
    strHasSub (joinWith sep l) x := by
  induction l with
  | nil => cases hx
  | cons y ys ih =>
    cases ys with
    | nil =>
      rw [List.mem_singleton.mp hx]
      exact strHasSub_refl y
    | cons z zs =>
      rcases List.mem_cons.mp hx with rfl | hx'
      · show strHasSub (x ++ sep ++ joinWith sep (z :: zs)) x
        exact strHasSub_appendR _ (strHasSub_appendR _ (strHasSub_refl x))
      · show strHasSub (y ++ sep ++ joinWith sep (z :: zs)) x
        exact strHasSub_appendL _ (ih hx')

/-! ### C10: the bounded poller `_timer` -/

theorem timerGo_total (f : Nat → Bool) (c : Bool) (msg : String) :
    ∀ rem k, timerGo f c msg k rem = .error msg ∨
      ∃ n, n ≤ k + rem ∧ timerGo f c msg k rem = .ok n := by
  intro rem
  induction rem with
  | zero =>
    intro k
    by_cases h : f k = c
    · exact .inr ⟨k, by omega, by simp [timerGo, h]⟩
    · exact .inl (by simp [timerGo, h])
  | succ r ih =>
    intro k
    by_cases h : f k = c
    · exact .inr ⟨k, by omega, by simp [timerGo, h]⟩
    · rcases ih (k + 1) with he | ⟨n, hn, hok⟩
      · exact .inl (by simp [timerGo, h]; exact he)
      · exact .inr ⟨n, by omega, by simp [timerGo, h]; exact hok⟩

theorem timerGo_ok_sound (f : Nat → Bool) (c : Bool) (msg : String) :
    ∀ rem k n, timerGo f c msg k rem = .ok n → f n = c ∧ k ≤ n ∧ n ≤ k + rem := by
  intro rem
  induction rem with
  | zero =>
    intro k n h
    by_cases hf : f k = c
    · simp [timerGo, hf] at h
      exact ⟨by rw [← h]; exact hf, by omega, by omega⟩
    · simp [timerGo, hf] at h
  | succ r ih =>
    intro k n h
    by_cases hf : f k = c
    · simp [timerGo, hf] at h
      exact ⟨by rw [← h]; exact hf, by omega, by omega⟩
    · simp [timerGo, hf] at h
      rcases ih (k + 1) n h with ⟨h1, h2, h3⟩
      exact ⟨h1, by omega, by omega⟩

theorem timerGo_timeout (f : Nat → Bool) (c : Bool) (msg : String) :
    ∀ rem k, (∀ j, k ≤ j → j ≤ k + rem → f j ≠ c) → timerGo f c msg k rem = .error msg := by
  intro rem
  induction rem with
  | zero =>
    intro k hall
    simp [timerGo, hall k le_rfl (by omega)]
  | succ r ih =>
    intro k hall
    simp [timerGo, hall k le_rfl (by omega)]
    exact ih (k + 1) fun j h1 h2 => hall j (by omega) (by omega)

/-- C10: bounded poller behaviour of `_timer`. The predicate is evaluated
before any timeout check: if its very first value is the expected one, the
call returns after zero sleeps, even with a zero timeout (conjunct 1). On
success, the predicate did hold at the tick it returned after, and that tick
was within the budget (conjunct 2). If the predicate never reaches the
expected value within `timeoutTicks + 1` evaluations, it raises
`CommandExecutionError(msg)` — the strict `>` comparison first fires on the
poll after the budget is exhausted (conjunct 3). The loop always terminates:
it either returns or raises (conjunct 4). One tick models one 0.25-second
poll interval. -/
theorem claim_C10 (f : Nat → Bool) (c : Bool) (tq : Nat) (msg : String) :
    (f 0 = c → timerModel f c tq msg = .ok 0) ∧
    (∀ n, timerModel f c tq msg = .ok n → f n = c ∧ n ≤ tq + 1) ∧
    ((∀ j, j ≤ tq + 1 → f j ≠ c) → timerModel f c tq msg = .error msg) ∧
    (timerModel f c tq msg = .error msg ∨ ∃ n, n ≤ tq + 1 ∧ timerModel f c tq msg = .ok n) := by
  refine ⟨fun h0 => ?_, fun n hn => ?_, fun hall => ?_, ?_⟩
  · cases tq <;> simp [timerModel, timerGo, h0]
  · rcases timerGo_ok_sound f c msg (tq + 1) 0 n hn with ⟨h1, _, h3⟩
    exact ⟨h1, by omega⟩
  · exact timerGo_timeout f c msg (tq + 1) 0 fun j _ h2 => hall j (by omega)
  · rcases timerGo_total f c msg (tq + 1) 0 with he | ⟨n, hn, hok⟩
    · exact .inl he
    · exact .inr ⟨n, by omega, hok⟩

/-- Witness for C10 at a concrete predicate: `f` first matches at tick 2
with budget 1 (= `timeoutTicks`), so the poller succeeds at tick 2. -/
theorem claim_C10_witness :
    ((fun k => decide (2 ≤ k)) 0 = true → timerModel (fun k => decide (2 ≤ k)) true 1 "m" = .ok 0) ∧
    (∀ n, timerModel (fun k => decide (2 ≤ k)) true 1 "m" = .ok n →
      (fun k => decide (2 ≤ k)) n = true ∧ n ≤ 1 + 1) ∧
    ((∀ j, j ≤ 1 + 1 → (fun k => decide (2 ≤ k)) j ≠ true) →
      timerModel (fun k => decide (2 ≤ k)) true 1 "m" = .error "m") ∧
    (timerModel (fun k => decide (2 ≤ k)) true 1 "m" = .error "m" ∨
      ∃ n, n ≤ 1 + 1 ∧ timerModel (fun k => decide (2 ≤ k)) true 1 "m" = .ok n) :=
  claim_C10 (fun k => decide (2 ≤ k)) true 1 "m"

/-! ### C4: ambiguity refusal in `connected` -/

/-- C4: calling `connected` with a bare (colon-free) peer name as target,
when the peer's slots of the plug's interface number anything other than one,
fails: result `False`, empty changes, no mutating call, and the comment
contains "does not expose exactly one". The `SaltInvocationError` is raised
outside the test-mode suppression guard, so this holds for `test` true and
false alike. -/
theorem claim_C4 (name connector t iface : String) (slots : List String) (test : Bool)
    (env : ConnEnv) (hbare : hasColon t = false)
    (hplug : env.plugIface = .ok (some iface)) (hslots : env.slotsQ = .ok slots)
    (hlen : slots.length ≠ 1) :
    (connected name connector (some t) test env).1.result = some false ∧
    (connected name connector (some t) test env).1.changes = none ∧
    (connected name connector (some t) test env).2 = [] ∧
    strHasSub (connected name connector (some t) test env).1.comment
      "does not expose exactly one" := by
  have hr : connected name connector (some t) test env =
      (⟨name, some false,
        "The target snap '" ++ t ++
          "' does not expose exactly one slot with interface type '" ++ iface ++
          "', but " ++ toString slots.length, none⟩, []) := by
    unfold connected connectedCore connResolve
    rw [hplug, hslots]
    simp [hbare, hlen]
  rw [hr]
  refine ⟨rfl, rfl, rfl, ?_⟩
  have hlit : strHasSub "' does not expose exactly one slot with interface type '"
      "does not expose exactly one" := by decide
  exact strHasSub_appendR _ (strHasSub_appendR _ (strHasSub_appendR _
    (strHasSub_appendL _ hlit)))

/-- Witness for C4: peer `"peer"` exposes two slots of the matching interface. -/
theorem claim_C4_witness :
    (connected "foo" "plg" (some "peer") false
      ⟨.ok (some "ifc"), .ok ["s1", "s2"], .ok [], .ok []⟩).1.result = some false ∧
    (connected "foo" "plg" (some "peer") false
      ⟨.ok (some "ifc"), .ok ["s1", "s2"], .ok [], .ok []⟩).1.changes = none ∧
    (connected "foo" "plg" (some "peer") false
      ⟨.ok (some "ifc"), .ok ["s1", "s2"], .ok [], .ok []⟩).2 = [] ∧
    strHasSub (connected "foo" "plg" (some "peer") false
      ⟨.ok (some "ifc"), .ok ["s1", "s2"], .ok [], .ok []⟩).1.comment
      "does not expose exactly one" :=
  claim_C4 "foo" "plg" "peer" "ifc" ["s1", "s2"] false
    ⟨.ok (some "ifc"), .ok ["s1", "s2"], .ok [], .ok []⟩ (by decide) rfl rfl (by decide)

/-! ### C6: the `latest` revision sentinel in `installed` -/

theorem instCheckChanges_latest_noUpgrade (channel? : Option String) (held? : Option Bool)
    (cur : SnapInfo)
    (hch : ∀ ch, channel? = some ch → ch = "" ∨ cur.channel = ch)
    (hheld : ∀ b, held? = some b → cur.held = b) :
    instCheckChanges channel? (some "latest") held? (.ok none) cur false = .ok ({}, none) := by
  cases channel? with
  | none =>
    cases held? with
    | none => simp [instCheckChanges]
    | some b => simp [instCheckChanges, hheld b rfl]
  | some ch =>
    cases held? with
    | none => rcases hch ch rfl with h | h <;> simp [instCheckChanges, h]
    | some b => rcases hch ch rfl with h | h <;> simp [instCheckChanges, h, hheld b rfl]

/-- C6: `installed` with `revision="latest"` on an already-installed snap
with no available upgrade: the sentinel resolves to `None`, the revision
field contributes no change, and with channel and hold matching the call
returns result `True` with empty changes and makes no mutating call. -/
theorem claim_C6 (name : String) (channel? : Option String) (classic : Bool)
    (held? : Option Bool) (assertions? : Option String) (test : Bool) (env : InstEnv)
    (cur : SnapInfo)
    (hfile : strEndsWith name ".snap" = false)
    (hlist : env.listPre = .ok (some cur))
    (hupg : env.upgQ = .ok none)
    (hch : ∀ ch, channel? = some ch → ch = "" ∨ cur.channel = ch)
    (hheld : ∀ b, held? = some b → cur.held = b) :
    installed name channel? (some "latest") classic held? assertions? test env =
      (⟨name, some true, "The snap is already installed as specified", {}⟩, []) := by
  have hchk : instCheckChanges channel? (some "latest") held? env.upgQ cur false =
      .ok ({}, none) := by
    rw [hupg]
    exact instCheckChanges_latest_noUpgrade channel? held? cur hch hheld
  unfold installed installedCore installedStage1
  rw [hfile]
  simp [hlist, hchk, instDiff, InstChanges.isEmpty]

/-- Witness for C6: snap at channel `latest/stable`, revision 5, unheld,
`revision="latest"` requested and no upgrade available. -/
theorem claim_C6_witness :
    installed "foo" (some "latest/stable") (some "latest") false none none false
      ⟨true, true, .ok ⟨"foo"⟩, .ok [], .ok [], .ok (some ⟨"latest/stable", "5", false⟩),
        .ok none, .ok none, .ok none⟩ =
      (⟨"foo", some true, "The snap is already installed as specified", {}⟩, []) :=
  claim_C6 "foo" (some "latest/stable") false none none false
    ⟨true, true, .ok ⟨"foo"⟩, .ok [], .ok [], .ok (some ⟨"latest/stable", "5", false⟩),
      .ok none, .ok none, .ok none⟩ ⟨"latest/stable", "5", false⟩
    (by decide) rfl rfl
    (fun ch h => by cases h; exact .inr rfl)
    (fun b h => by cases h)

/-! ### C1: idempotence of the state operations -/

/-- Target resolution of `connected`, as a partial function: `some tgt` when
the function resolves the connection target to `tgt` without erroring
(default core target, fully-qualified target, or bare peer exposing exactly
one matching slot). -/
def connTargetOf (connector : String) (target? : Option String) (env : ConnEnv) :
    Option String :=
  match target? with
  | none => some ("core:" ++ connector)
  | some t =>
    if hasColon t then some t
    else
      match env.plugIface, env.slotsQ with
      | .ok (some _), .ok [s] => some (t ++ ":" ++ s)
      | _, _ => none

/-- C1: idempotence. For each of the eight state operations, if the freshly
queried observed state already matches the desired state, the call returns
result `True` with an empty changes mapping and performs no mutating provider
call. Because the operations are pure functions of the backing state and
leave it untouched (empty mutation list), every repeated invocation against
the same backing state returns the same clean result. The `installed`
conjunct is stated twice: once for a store snap and once for a local `.snap`
file whose assertion is imported and whose pinned revision is installed. -/
theorem claim_C1 :
    (∀ name connector target? test env tgt curr,
      connTargetOf connector target? env = some tgt →
      env.connsQ = .ok curr →
      connFind curr connector (splitColon1 tgt).1 (splitColon1 tgt).2 = true →
      connected name connector target? test env =
        (⟨name, some true, "The connection is already established", none⟩, [])) ∧
    (∀ name test env, env.isEnabledPre = .ok true →
      enabled name test env = (⟨name, some true, "The snap is already enabled", none⟩, [])) ∧
    (∀ name test env, env.isEnabledPre = .ok false →
      disabled name test env = (⟨name, some true, "The snap is already disabled", none⟩, [])) ∧
    (∀ name channel? revision? classic held? assertions? test env cur rev1,
      strEndsWith name ".snap" = false →
      env.listPre = .ok (some cur) →
      instCheckChanges channel? revision? held? env.upgQ cur false = .ok ({}, rev1) →
      installed name channel? revision? classic held? assertions? test env =
        (⟨name, some true, "The snap is already installed as specified", {}⟩, [])) ∧
    (∀ name channel? classic held? assertions? test env cur r rs,
      strEndsWith name ".snap" = true →
      env.pathAbsolute = true → env.pathExists = true →
      env.infoQ = .ok ⟨name⟩ →
      env.knownQ = .ok (r :: rs) →
      env.listPre = .ok (some cur) →
      cur.revision = r →
      installed name channel? (some r) classic held? assertions? test env =
        (⟨name, some true, "The snap is already installed as specified", {}⟩, [])) ∧
    (∀ name purge test env, env.listPre = .ok false →
      removed name purge test env = (⟨name, some true, "The snap is already absent", none⟩, [])) ∧
    (∀ name option? value? options? test env data,
      ((strTruthy option? && value?.isSome) || optsTruthy options?) = true →
      ((strTruthy option? && value?.isSome) && optsTruthy options?) = false →
      env.optsQ = .ok data →
      (optCheckChanges (optDesired option? value? options?) data).1 = [] →
      option_managed name option? value? options? test env =
        (⟨name, some true, "All options are in the correct state", []⟩, [])) ∧
    (∀ name service? enabled? timeout test env services,
      env.servicesQ = .ok services →
      services ≠ [] →
      check_service_changes services true (if enabled? = some true then some true else none) =
        ([], []) →
      service_running name service? enabled? timeout test env =
        (⟨name, some true, "All services are in the correct state", {}⟩, [], [])) ∧
    (∀ name service? disabled? timeout test env services,
      env.servicesQ = .ok services →
      services ≠ [] →
      check_service_changes services false (if disabled? = some true then some false else none) =
        ([], []) →
      service_dead name service? disabled? timeout test env =
        (⟨name, some true, "All services are in the correct state", {}⟩, [], [])) := by
  refine ⟨?_, ?_, ?_, ?_, ?_, ?_, ?_, ?_, ?_⟩
  · -- connected
    intro name connector target? test env tgt curr hres hconns hfind
    unfold connected connectedCore connResolve
    rw [hconns]
    cases target? with
    | none =>
      simp only [connTargetOf, Option.some.injEq] at hres
      subst hres
      simp [hfind]
    | some t =>
      simp only [connTargetOf] at hres
      by_cases hcol : hasColon t = true
      · rw [if_pos hcol] at hres
        simp only [Option.some.injEq] at hres
        subst hres
        simp [hcol, hfind]
      · rw [if_neg hcol] at hres
        rcases hpi : env.plugIface with e | oi
        · rw [hpi] at hres; simp at hres
        · rcases oi with _ | iface
          · rw [hpi] at hres; simp at hres
          · rcases hsq : env.slotsQ with e2 | slots
            · rw [hpi, hsq] at hres; simp at hres
            · rcases slots with _ | ⟨s, rest⟩
              · rw [hpi, hsq] at hres; simp at hres
              · rcases rest with _ | ⟨s2, rest2⟩
                · rw [hpi, hsq] at hres
                  simp only [Option.some.injEq] at hres
                  subst hres
                  simp [hcol, hpi, hsq, hfind]
                · rw [hpi, hsq] at hres; simp at hres
  · -- enabled
    intro name test env hpre
    unfold enabled enabledCore
    rw [hpre]
    simp
  · -- disabled
    intro name test env hpre
    unfold disabled disabledCore
    rw [hpre]
    simp
  · -- installed, store snap
    intro name channel? revision? classic held? assertions? test env cur rev1 hfile hlist hchk
    unfold installed installedCore installedStage1
    rw [hfile]
    simp [hlist, hchk, instDiff, InstChanges.isEmpty]
  · -- installed, .snap file
    intro name channel? classic held? assertions? test env cur r rs hfile habs hex hinfo
      hknown hlist hrev
    have hchk : instCheckChanges channel? (some r) held? env.upgQ cur true = .ok ({}, some r) := by
      unfold instCheckChanges
      simp [hrev]
    unfold installed installedCore installedStage1
    rw [hfile, habs, hex, hinfo, hknown]
    simp [hlist, hchk, instDiff, InstChanges.isEmpty]
  · -- removed
    intro name purge test env hpre
    unfold removed removedCore
    rw [hpre]
    simp
  · -- option_managed
    intro name option? value? options? test env data hval hboth hopts hchk
    unfold option_managed option_managedCore
    simp [hval, hboth, hopts, hchk]
  · -- service_running
    intro name service? enabled? timeout test env services hq hne hchk
    unfold service_running service_runningCore
    rw [hq]
    simp [hne, hchk]
  · -- service_dead
    intro name service? disabled? timeout test env services hq hne hchk
    unfold service_dead service_deadCore
    rw [hq]
    simp [hne, hchk]

/-- Witness for C1: each conjunct instantiated at a matching backing state. -/
theorem claim_C1_witness :
    (connected "n" "p" (some "c:s") false ⟨.ok none, .ok [], .ok [⟨"n", "p", "c", "s"⟩], .ok []⟩ =
      (⟨"n", some true, "The connection is already established", none⟩, [])) ∧
    (enabled "n" false ⟨.ok true, .ok true⟩ =
      (⟨"n", some true, "The snap is already enabled", none⟩, [])) ∧
    (disabled "n" false ⟨.ok false, .ok false⟩ =
      (⟨"n", some true, "The snap is already disabled", none⟩, [])) ∧
    (installed "n" (some "ch") (some "3") false (some false) none false
      ⟨true, true, .ok ⟨"n"⟩, .ok [], .ok [], .ok (some ⟨"ch", "3", false⟩), .ok none,
        .ok none, .ok none⟩ =
      (⟨"n", some true, "The snap is already installed as specified", {}⟩, [])) ∧
    (installed "/a/n.snap" (some "ch") (some "7") false none none false
      ⟨true, true, .ok ⟨"/a/n.snap"⟩, .ok ["7"], .ok [], .ok (some ⟨"ch", "7", false⟩),
        .ok none, .ok none, .ok none⟩ =
      (⟨"/a/n.snap", some true, "The snap is already installed as specified", {}⟩, [])) ∧
    (removed "n" false false ⟨.ok false, .ok false⟩ =
      (⟨"n", some true, "The snap is already absent", none⟩, [])) ∧
    (option_managed "n" (some "k") (some (some "v")) none false
      ⟨.ok [("k", "v")], fun _ => none, fun _ => none, .ok [("k", "v")]⟩ =
      (⟨"n", some true, "All options are in the correct state", []⟩, [])) ∧
    (service_running "n" none (some true) 10 false
      ⟨.ok [("n.svc", ⟨true, true⟩)], fun _ => none, fun _ => none, fun _ => true, fun _ => true⟩ =
      (⟨"n", some true, "All services are in the correct state", {}⟩, [], [])) ∧
    (service_dead "n" none (some true) 10 false
      ⟨.ok [("n.svc", ⟨false, false⟩)], fun _ => none, fun _ => none, fun _ => true, fun _ => true⟩ =
      (⟨"n", some true, "All services are in the correct state", {}⟩, [], [])) :=
  ⟨claim_C1.1 "n" "p" (some "c:s") false _ "c:s" _ (by decide) rfl (by decide),
   claim_C1.2.1 "n" false _ rfl,
   claim_C1.2.2.1 "n" false _ rfl,
   claim_C1.2.2.2.1 "n" (some "ch") (some "3") false (some false) none false _
     ⟨"ch", "3", false⟩ (some "3") (by decide) rfl rfl,
   claim_C1.2.2.2.2.1 "/a/n.snap" (some "ch") false none none false _
     ⟨"ch", "7", false⟩ "7" [] (by decide) rfl rfl rfl rfl rfl rfl,
   claim_C1.2.2.2.2.2.1 "n" false false _ rfl,
   claim_C1.2.2.2.2.2.2.1 "n" (some "k") (some (some "v")) none false _ [("k", "v")]
     (by decide) (by decide) rfl (by decide),
   claim_C1.2.2.2.2.2.2.2.1 "n" none (some true) 10 false _ [("n.svc", ⟨true, true⟩)]
     rfl (by decide) (by decide),
   claim_C1.2.2.2.2.2.2.2.2 "n" none (some true) 10 false _ [("n.svc", ⟨false, false⟩)]
     rfl (by decide) (by decide)⟩

/-! ### C9: error-report atomicity of the top-level handlers -/

/-- C9: whenever a single-item operation (`connected`, `disconnected`,
`enabled`, `disabled`, `installed`, `removed`) terminates through its
top-level exception handler (its `try`-body `...Core` returns an error), the
returned dictionary has result `False` and an **empty** changes mapping —
the handler assigns `ret["changes"] = {}`. The fan-out operations
(`option_managed`, `service_running`, `service_dead`) deliberately keep the
changes accumulated before the error: their handlers do not clear
`ret["changes"]` (the service states only pop empty change keys). -/
theorem claim_C9 :
    (∀ name connector target? test env e ms,
      connectedCore name connector target? test env = .error (e, ms) →
      connected name connector target? test env = (⟨name, some false, e.msg, none⟩, ms)) ∧
    (∀ name connector target? test env e ms,
      disconnectedCore name connector target? test env = .error (e, ms) →
      disconnected name connector target? test env = (⟨name, some false, e.msg, none⟩, ms)) ∧
    (∀ name test env e ms,
      enabledCore name test env = .error (e, ms) →
      enabled name test env = (⟨name, some false, e.msg, none⟩, ms)) ∧
    (∀ name test env e ms,
      disabledCore name test env = .error (e, ms) →
      disabled name test env = (⟨name, some false, e.msg, none⟩, ms)) ∧
    (∀ name channel? revision? classic held? assertions? test env e ms,
      installedCore name channel? revision? classic held? assertions? test env = .error (e, ms) →
      installed name channel? revision? classic held? assertions? test env =
        (⟨name, some false, e.msg, {}⟩, ms)) ∧
    (∀ name purge test env e ms,
      removedCore name purge test env = .error (e, ms) →
      removed name purge test env = (⟨name, some false, e.msg, none⟩, ms)) ∧
    (∀ name option? value? options? test env e cs ms,
      option_managedCore name option? value? options? test env = .error (e, cs, ms) →
      option_managed name option? value? options? test env =
        (⟨name, some false, e.msg, cs⟩, ms)) ∧
    (∀ name service? enabled? timeout test env e c ms ts,
      service_runningCore name service? enabled? timeout test env = .error (e, c, ms, ts) →
      service_running name service? enabled? timeout test env =
        (⟨name, some false, e.msg, srPrune c⟩, ms, ts)) ∧
    (∀ name service? disabled? timeout test env e c ms ts,
      service_deadCore name service? disabled? timeout test env = .error (e, c, ms, ts) →
      service_dead name service? disabled? timeout test env =
        (⟨name, some false, e.msg, sdPrune c⟩, ms, ts)) := by
  refine ⟨?_, ?_, ?_, ?_, ?_, ?_, ?_, ?_, ?_⟩
  · intro name connector target? test env e ms h
    unfold connected
    rw [h]
  · intro name connector target? test env e ms h
    unfold disconnected
    rw [h]
  · intro name test env e ms h
    unfold enabled
    rw [h]
  · intro name test env e ms h
    unfold disabled
    rw [h]
  · intro name channel? revision? classic held? assertions? test env e ms h
    unfold installed
    rw [h]
  · intro name purge test env e ms h
    unfold removed
    rw [h]
  · intro name option? value? options? test env e cs ms h
    unfold option_managed
    rw [h]
  · intro name service? enabled? timeout test env e c ms ts h
    unfold service_running
    rw [h]
  · intro name service? disabled? timeout test env e c ms ts h
    unfold service_dead
    rw [h]

/-- Witness for C9, one handler-terminating run per operation; the
`option_managed` instance also exhibits a fan-out error preserving a
non-empty accumulated changes mapping. -/
theorem claim_C9_witness :
    (connected "n" "p" (some "t") false ⟨.ok none, .ok [], .ok [], .ok []⟩ =
      (⟨"n", some false, "The snap 'n' does not have a plug named 'p'", none⟩, [])) ∧
    (disconnected "n" "p" none false ⟨.ok false, .ok false, .ok [], .ok []⟩ =
      (⟨"n", some false, "The snap carries neither a slot nor a plug with this name", none⟩,
        [])) ∧
    (enabled "n" false ⟨.ok false, .ok false⟩ =
      (⟨"n", some false, "Tried to enable the snap, but it is still disabled", none⟩,
        [Mut.enable "n"])) ∧
    (disabled "n" false ⟨.ok true, .ok true⟩ =
      (⟨"n", some false, "Tried to disable the snap, but it is still enabled", none⟩,
        [Mut.disable "n"])) ∧
    (installed "n" none none false none none false
      ⟨true, true, .ok ⟨"n"⟩, .ok [], .ok [], .error ⟨"boom"⟩, .ok none, .ok none, .ok none⟩ =
      (⟨"n", some false, "boom", {}⟩, [])) ∧
    (removed "n" false false ⟨.error ⟨"boom"⟩, .ok false⟩ =
      (⟨"n", some false, "boom", none⟩, [])) ∧
    (option_managed "n" none none (some [("a", some "1"), ("b", some "2")]) false
      ⟨.ok [], (fun _ => none),
        (fun o => if o = "b" then some ⟨"kaput"⟩ else none), .ok []⟩ =
      (⟨"n", some false, "Encountered some errors:\nb: kaput",
        [("a", ⟨none, some "1", true, false⟩)]⟩,
        [Mut.option_set "n" "a" (some "1"), Mut.option_set "n" "b" (some "2")])) ∧
    (service_running "n" none none 10 false
      ⟨.error ⟨"boom"⟩, (fun _ => none), (fun _ => none), (fun _ => true), (fun _ => true)⟩ =
      (⟨"n", some false, "boom", {}⟩, [], [])) ∧
    (service_dead "n" none none 10 false
      ⟨.error ⟨"boom"⟩, (fun _ => none), (fun _ => none), (fun _ => true), (fun _ => true)⟩ =
      (⟨"n", some false, "boom", {}⟩, [], [])) :=
  ⟨claim_C9.1 "n" "p" (some "t") false _ ⟨"The snap 'n' does not have a plug named 'p'"⟩ []
     rfl,
   claim_C9.2.1 "n" "p" none false _
     ⟨"The snap carries neither a slot nor a plug with this name"⟩ [] rfl,
   claim_C9.2.2.1 "n" false _ ⟨"Tried to enable the snap, but it is still disabled"⟩
     [Mut.enable "n"] rfl,
   claim_C9.2.2.2.1 "n" false _ ⟨"Tried to disable the snap, but it is still enabled"⟩
     [Mut.disable "n"] rfl,
   claim_C9.2.2.2.2.1 "n" none none false none none false _ ⟨"boom"⟩ [] rfl,
   claim_C9.2.2.2.2.2.1 "n" false false _ ⟨"boom"⟩ [] rfl,
   claim_C9.2.2.2.2.2.2.1 "n" none none (some [("a", some "1"), ("b", some "2")]) false _
     ⟨"Encountered some errors:\nb: kaput"⟩ [("a", ⟨none, some "1", true, false⟩)]
     [Mut.option_set "n" "a" (some "1"), Mut.option_set "n" "b" (some "2")] rfl,
   claim_C9.2.2.2.2.2.2.2.1 "n" none none 10 false _ ⟨"boom"⟩ {} [] [] rfl,
   claim_C9.2.2.2.2.2.2.2.2 "n" none none 10 false _ ⟨"boom"⟩ {} [] [] rfl⟩

/-! ### C2: dry-run non-mutation and prediction accuracy -/

/-- Mutating calls of a single-item core outcome (both branches carry them). -/
def coreMuts {χ : Type} : Except (Err × List Mut) (SRet χ × List Mut) → List Mut
  | .ok r => r.2
  | .error em => em.2

/-- Mutating calls of the `option_managed` core outcome. -/
def coreMutsOpt : Except (Err × OptChanges × List Mut) (SRet OptChanges × List Mut) → List Mut
  | .ok r => r.2
  | .error em => em.2.2

/-- Mutating calls of a service-state core outcome. -/
def coreMutsSvc {χ : Type} :
    Except (Err × χ × List Mut × List TRec) (SRet χ × List Mut × List TRec) → List Mut
  | .ok r => r.2.1
  | .error em => em.2.2.1

/-- Mutating calls of a resolution-stage outcome. -/
def resolveMuts : Except (Err × List Mut) (Except (SRet (Option String)) String) → List Mut
  | .error em => em.2
  | .ok _ => []

theorem connResolve_test_noMut (name connector : String) (target? : Option String)
    (env : ConnEnv) (base : SRet (Option String)) :
    resolveMuts (connResolve name connector target? true env base) = [] := by
  unfold connResolve
  repeat' split
  all_goals simp_all [resolveMuts]

theorem connectedCore_test_noMut (name connector : String) (target? : Option String)
    (env : ConnEnv) : coreMuts (connectedCore name connector target? true env) = [] := by
  unfold connectedCore
  dsimp only
  have h := connResolve_test_noMut name connector target? env
    ⟨name, some true, "The connection is already established", none⟩
  cases hr : connResolve name connector target? true env
      ⟨name, some true, "The connection is already established", none⟩ with
  | error em =>
    rw [hr] at h
    simp [resolveMuts] at h
    simp [coreMuts, h]
  | ok r =>
    cases r with
    | error early => simp [coreMuts]
    | ok target =>
      dsimp only
      repeat' split
      all_goals simp_all [coreMuts]

theorem connected_test_noMut (name connector : String) (target? : Option String)
    (env : ConnEnv) : (connected name connector target? true env).2 = [] := by
  have h := connectedCore_test_noMut name connector target? env
  unfold connected
  cases hc : connectedCore name connector target? true env with
  | ok r => rw [hc] at h; exact h
  | error em => rw [hc] at h; simp [coreMuts] at h; simp [h]

theorem disconnectedCore_test_noMut (name connector : String) (target? : Option String)
    (env : DiscEnv) : coreMuts (disconnectedCore name connector target? true env) = [] := by
  unfold disconnectedCore
  dsimp only
  repeat' split
  all_goals simp_all [coreMuts]

theorem disconnected_test_noMut (name connector : String) (target? : Option String)
    (env : DiscEnv) : (disconnected name connector target? true env).2 = [] := by
  have h := disconnectedCore_test_noMut name connector target? env
  unfold disconnected
  cases hc : disconnectedCore name connector target? true env with
  | ok r => rw [hc] at h; exact h
  | error em => rw [hc] at h; simp [coreMuts] at h; simp [h]

theorem enabledCore_test_noMut (name : String) (env : ToggleEnv) :
    coreMuts (enabledCore name true env) = [] := by
  unfold enabledCore
  dsimp only
  repeat' split
  all_goals simp_all [coreMuts]

theorem enabled_test_noMut (name : String) (env : ToggleEnv) :
    (enabled name true env).2 = [] := by
  have h := enabledCore_test_noMut name env
  unfold enabled
  cases hc : enabledCore name true env with
  | ok r => rw [hc] at h; exact h
  | error em => rw [hc] at h; simp [coreMuts] at h; simp [h]

theorem disabledCore_test_noMut (name : String) (env : ToggleEnv) :
    coreMuts (disabledCore name true env) = [] := by
  unfold disabledCore
  dsimp only
  repeat' split
  all_goals simp_all [coreMuts]

theorem disabled_test_noMut (name : String) (env : ToggleEnv) :
    (disabled name true env).2 = [] := by
  have h := disabledCore_test_noMut name env
  unfold disabled
  cases hc : disabledCore name true env with
  | ok r => rw [hc] at h; exact h
  | error em => rw [hc] at h; simp [coreMuts] at h; simp [h]

theorem removedCore_test_noMut (name : String) (purge : Bool) (env : RemoveEnv) :
    coreMuts (removedCore name purge true env) = [] := by
  unfold removedCore
  dsimp only
  repeat' split
  all_goals simp_all [coreMuts]

theorem removed_test_noMut (name : String) (purge : Bool) (env : RemoveEnv) :
    (removed name purge true env).2 = [] := by
  have h := removedCore_test_noMut name purge env
  unfold removed
  cases hc : removedCore name purge true env with
  | ok r => rw [hc] at h; exact h
  | error em => rw [hc] at h; simp [coreMuts] at h; simp [h]

/-- Mutating calls of an `installed` preamble outcome. -/
def stageMuts : Except (Err × List Mut) (Except (SRet InstChanges) (String × Option String × List Mut)) → List Mut
  | .error em => em.2
  | .ok (.error _) => []
  | .ok (.ok st) => st.2.2

theorem installedStage1_test_noMut (name : String) (revision? : Option String)
    (assertions? : Option String) (env : InstEnv) (base : SRet InstChanges) (isfile : Bool) :
    stageMuts (installedStage1 name revision? assertions? true env base isfile) = [] := by
  unfold installedStage1
  dsimp only
  repeat' split
  all_goals simp_all [stageMuts]

theorem installedCore_test_noMut (name : String) (channel? revision? : Option String)
    (classic : Bool) (held? : Option Bool) (assertions? : Option String) (env : InstEnv) :
    coreMuts (installedCore name channel? revision? classic held? assertions? true env) = [] := by
  unfold installedCore
  dsimp only
  have h := installedStage1_test_noMut name revision? assertions? env
    ⟨name, some true, "The snap is already installed as specified", {}⟩
    (strEndsWith name ".snap")
  cases hr : installedStage1 name revision? assertions? true env
      ⟨name, some true, "The snap is already installed as specified", {}⟩
      (strEndsWith name ".snap") with
  | error em =>
    rw [hr] at h
    simp [stageMuts] at h
    simp [coreMuts, h]
  | ok r =>
    rw [hr] at h
    cases r with
    | error early => simp [coreMuts]
    | ok st =>
      simp [stageMuts] at h
      dsimp only
      repeat' split
      all_goals (try (exact absurd rfl (by assumption)))
      all_goals simp_all [coreMuts]

theorem installed_test_noMut (name : String) (channel? revision? : Option String)
    (classic : Bool) (held? : Option Bool) (assertions? : Option String) (env : InstEnv) :
    (installed name channel? revision? classic held? assertions? true env).2 = [] := by
  have h := installedCore_test_noMut name channel? revision? classic held? assertions? env
  unfold installed
  cases hc : installedCore name channel? revision? classic held? assertions? true env with
  | ok r => rw [hc] at h; exact h
  | error em => rw [hc] at h; simp [coreMuts] at h; simp [h]

theorem option_managedCore_test_noMut (name : String) (option? : Option String)
    (value? : Option (Option String)) (options? : Option (List (String × Option String)))
    (env : OptEnv) :
    coreMutsOpt (option_managedCore name option? value? options? true env) = [] := by
  unfold option_managedCore
  dsimp only
  repeat' split
  all_goals (try (exact absurd rfl (by assumption)))
  all_goals simp_all [coreMutsOpt]

theorem option_managed_test_noMut (name : String) (option? : Option String)
    (value? : Option (Option String)) (options? : Option (List (String × Option String)))
    (env : OptEnv) : (option_managed name option? value? options? true env).2 = [] := by
  have h := option_managedCore_test_noMut name option? value? options? env
  unfold option_managed
  cases hc : option_managedCore name option? value? options? true env with
  | ok r => rw [hc] at h; exact h
  | error em => rw [hc] at h; simp [coreMutsOpt] at h; simp [h]

theorem service_runningCore_test_noMut (name : String) (service? : Option String)
    (enabled? : Option Bool) (timeout : Nat) (env : SvcEnv) :
    coreMutsSvc (service_runningCore name service? enabled? timeout true env) = [] := by
  unfold service_runningCore
  dsimp only
  repeat' split
  all_goals simp_all [coreMutsSvc]

theorem service_running_test_noMut (name : String) (service? : Option String)
    (enabled? : Option Bool) (timeout : Nat) (env : SvcEnv) :
    (service_running name service? enabled? timeout true env).2.1 = [] := by
  have h := service_runningCore_test_noMut name service? enabled? timeout env
  unfold service_running
  cases hc : service_runningCore name service? enabled? timeout true env with
  | ok r => rw [hc] at h; exact h
  | error em => rw [hc] at h; simp [coreMutsSvc] at h; simp [h]

theorem service_deadCore_test_noMut (name : String) (service? : Option String)
    (disabled? : Option Bool) (timeout : Nat) (env : SvcEnv) :
    coreMutsSvc (service_deadCore name service? disabled? timeout true env) = [] := by
  unfold service_deadCore
  dsimp only
  repeat' split
  all_goals simp_all [coreMutsSvc]

theorem service_dead_test_noMut (name : String) (service? : Option String)
    (disabled? : Option Bool) (timeout : Nat) (env : SvcEnv) :
    (service_dead name service? disabled? timeout true env).2.1 = [] := by
  have h := service_deadCore_test_noMut name service? disabled? timeout env
  unfold service_dead
  cases hc : service_deadCore name service? disabled? timeout true env with
  | ok r => rw [hc] at h; exact h
  | error em => rw [hc] at h; simp [coreMutsSvc] at h; simp [h]

/-! ### Service fan-out loop characterization -/

theorem mem_dedupF [DecidableEq α] (a : α) (l : List α) : a ∈ dedupF l ↔ a ∈ l := by
  induction l with
  | nil => simp [dedupF]
  | cons x xs ih =>
    simp only [dedupF, List.mem_cons, List.mem_filter]
    constructor
    · rintro (rfl | ⟨h1, _⟩)
      · exact .inl rfl
      · exact .inr (ih.mp h1)
    · rintro (rfl | h)
      · exact .inl rfl
      · by_cases hx : a = x
        · exact .inl hx
        · exact .inr ⟨ih.mpr h, by simpa using hx⟩

theorem dedupF_nodup [DecidableEq α] (l : List α) : (dedupF l).Nodup := by
  induction l with
  | nil => simp [dedupF]
  | cons x xs ih =>
    simp only [dedupF, List.nodup_cons]
    refine ⟨fun hx => ?_, ih.filter _⟩
    rcases List.mem_filter.mp hx with ⟨_, hne⟩
    simp at hne

theorem dedupF_eq_self [DecidableEq α] {l : List α} (h : l.Nodup) : dedupF l = l := by
  induction l with
  | nil => rfl
  | cons x xs ih =>
    rcases List.nodup_cons.mp h with ⟨hx, hxs⟩
    simp only [dedupF, ih hxs]
    rw [List.filter_eq_self.mpr]
    intro a ha
    simp only [ne_eq, decide_eq_true_eq]
    exact fun he => hx (he ▸ ha)

theorem filter_dedupF_append_left [DecidableEq α] {s : List α} (e : List α) (hs : s.Nodup) :
    (dedupF (s ++ e)).filter (· ∈ s) = s := by
  induction s generalizing e with
  | nil => simp
  | cons x s' ih =>
    rcases List.nodup_cons.mp hs with ⟨hx, hs'⟩
    have hstep : dedupF (x :: (s' ++ e)) = x :: (dedupF (s' ++ e)).filter (· ≠ x) := rfl
    rw [List.cons_append, hstep]
    rw [List.filter_cons_of_pos (by simp), List.filter_filter]
    congr 1
    have hcong : ∀ a ∈ dedupF (s' ++ e),
        (decide (a ∈ x :: s') && decide (a ≠ x)) = decide (a ∈ s') := by
      intro a _
      by_cases has : a ∈ s'
      · have hne : a ≠ x := fun he => hx (he ▸ has)
        simp [has, hne]
      · by_cases hax : a = x <;> simp [has, hax, hx]
    rw [List.filter_congr hcong]
    exact ih e hs'

/-- Membership-preserving set equality of the secondary filtered list. -/
theorem mem_filter_dedupF_append [DecidableEq α] (s e : List α) (a : α) :
    a ∈ (dedupF (s ++ e)).filter (· ∈ e) ↔ a ∈ e := by
  simp [List.mem_filter, mem_dedupF]
  intro ha
  exact .inr ha

/-- Component-wise concatenation of two loop accumulators. -/
def SvcAcc.app (a b : SvcAcc) : SvcAcc :=
  ⟨a.prim ++ b.prim, a.secd ++ b.secd, a.errs ++ b.errs, a.muts ++ b.muts,
    a.timers ++ b.timers⟩

theorem SvcAcc.app_empty (a : SvcAcc) : a.app {} = a := by
  simp [SvcAcc.app]

theorem SvcAcc.empty_app (a : SvcAcc) : SvcAcc.app {} a = a := by
  simp [SvcAcc.app]

theorem SvcAcc.app_assoc (a b c : SvcAcc) : (a.app b).app c = a.app (b.app c) := by
  simp [SvcAcc.app]

/-- Concatenation of a list of accumulators. -/
def svcConcat : List SvcAcc → SvcAcc
  | [] => {}
  | a :: rest => a.app (svcConcat rest)

theorem svcRunStep_app (env : SvcEnv) (ea : Option Bool) (start enable : List String)
    (t : Nat) (acc : SvcAcc) (serv : String) :
    svcRunStep env ea start enable t acc serv =
      acc.app (svcRunStep env ea start enable t {} serv) := by
  unfold svcRunStep
  dsimp only
  repeat' split
  all_goals simp [SvcAcc.app]

theorem svcDeadStep_app (env : SvcEnv) (da : Option Bool) (stop disable : List String)
    (t : Nat) (acc : SvcAcc) (serv : String) :
    svcDeadStep env da stop disable t acc serv =
      acc.app (svcDeadStep env da stop disable t {} serv) := by
  unfold svcDeadStep
  dsimp only
  repeat' split
  all_goals simp [SvcAcc.app]

theorem foldl_svcApp (step : SvcAcc → String → SvcAcc)
    (hstep : ∀ acc s, step acc s = acc.app (step {} s)) :
    ∀ (l : List String) (acc : SvcAcc),
      l.foldl step acc = acc.app (svcConcat (l.map (step {}))) := by
  intro l
  induction l with
  | nil => intro acc; simp [svcConcat, SvcAcc.app_empty]
  | cons s rest ih =>
    intro acc
    rw [List.foldl_cons, ih, hstep acc s, SvcAcc.app_assoc]
    rfl

theorem svcConcat_prim (one : String → SvcAcc) (p : String → Bool)
    (h : ∀ s, (one s).prim = if p s then [s] else []) (l : List String) :
    (svcConcat (l.map one)).prim = l.filter p := by
  induction l with
  | nil => rfl
  | cons s rest ih =>
    simp only [List.map_cons, svcConcat, SvcAcc.app, List.filter_cons]
    rw [h s, ih]
    split <;> simp_all

theorem svcConcat_secd (one : String → SvcAcc) (p : String → Bool)
    (h : ∀ s, (one s).secd = if p s then [s] else []) (l : List String) :
    (svcConcat (l.map one)).secd = l.filter p := by
  induction l with
  | nil => rfl
  | cons s rest ih =>
    simp only [List.map_cons, svcConcat, SvcAcc.app, List.filter_cons]
    rw [h s, ih]
    split <;> simp_all

theorem svcConcat_errs (one : String → SvcAcc) (f : String → Option (String × String))
    (h : ∀ s, (one s).errs = match f s with | some pr => [pr] | none => [])
    (l : List String) :
    (svcConcat (l.map one)).errs = l.filterMap f := by
  induction l with
  | nil => rfl
  | cons s rest ih =>
    simp only [List.map_cons, svcConcat, SvcAcc.app, List.filterMap_cons]
    rw [h s, ih]
    split <;> simp_all

theorem svcConcat_timers (one : String → SvcAcc) (f : String → List TRec)
    (h : ∀ s, (one s).timers = f s) (l : List String) :
    (svcConcat (l.map one)).timers = l.flatMap f := by
  induction l with
  | nil => rfl
  | cons s rest ih =>
    simp only [List.map_cons, svcConcat, SvcAcc.app, List.flatMap_cons]
    rw [h s, ih]

/-- Per-service error outcome of the `service_running` loop body. -/
def svcRunErr (env : SvcEnv) (start enable : List String) (serv : String) :
    Option (String × String) :=
  match env.startRes serv with
  | some e => some (serv, e.msg)
  | none =>
    if serv ∈ start then
      if env.runTimerOk serv then
        if serv ∈ enable then
          if env.enTimerOk serv then none else some (serv, startEnMsg)
        else none
      else some (serv, startRunMsg)
    else if serv ∈ enable then
      if env.enTimerOk serv then none else some (serv, startEnMsg)
    else none

/-- Per-service `_timer` invocations of the `service_running` loop body. -/
def svcRunTimersOne (env : SvcEnv) (start enable : List String) (timeout : Nat)
    (serv : String) : List TRec :=
  match env.startRes serv with
  | some _ => []
  | none =>
    if serv ∈ start then
      (⟨.runningQ, serv, true, timeout, startRunMsg⟩ : TRec) ::
        (if env.runTimerOk serv ∧ serv ∈ enable then
          [(⟨.enabledQ, serv, true, 1, startEnMsg⟩ : TRec)] else [])
    else if serv ∈ enable then [(⟨.enabledQ, serv, true, timeout, startEnMsg⟩ : TRec)]
    else []

theorem svcRunOne_prim (env : SvcEnv) (ea : Option Bool) (start enable : List String)
    (t : Nat) (serv : String) :
    (svcRunStep env ea start enable t {} serv).prim =
      if (env.startRes serv).isNone ∧ serv ∈ start ∧ env.runTimerOk serv
      then [serv] else [] := by
  unfold svcRunStep
  dsimp only
  repeat' split
  all_goals simp_all

theorem svcRunOne_secd (env : SvcEnv) (ea : Option Bool) (start enable : List String)
    (t : Nat) (serv : String) :
    (svcRunStep env ea start enable t {} serv).secd =
      if (env.startRes serv).isNone ∧ serv ∈ enable ∧ (serv ∈ start → env.runTimerOk serv) ∧
          env.enTimerOk serv
      then [serv] else [] := by
  unfold svcRunStep
  dsimp only
  repeat' split
  all_goals simp_all

theorem svcRunOne_errs (env : SvcEnv) (ea : Option Bool) (start enable : List String)
    (t : Nat) (serv : String) :
    (svcRunStep env ea start enable t {} serv).errs =
      match svcRunErr env start enable serv with | some pr => [pr] | none => [] := by
  unfold svcRunStep svcRunErr
  dsimp only
  repeat' split
  all_goals simp_all

theorem svcRunOne_muts (env : SvcEnv) (ea : Option Bool) (start enable : List String)
    (t : Nat) (serv : String) :
    (svcRunStep env ea start enable t {} serv).muts = [Mut.service_start serv ea] := by
  unfold svcRunStep
  dsimp only
  repeat' split
  all_goals simp_all

theorem svcRunOne_timers (env : SvcEnv) (ea : Option Bool) (start enable : List String)
    (t : Nat) (serv : String) :
    (svcRunStep env ea start enable t {} serv).timers =
      svcRunTimersOne env start enable t serv := by
  unfold svcRunStep svcRunTimersOne
  dsimp only
  repeat' split
  all_goals simp_all

/-- Per-service error outcome of the `service_dead` loop body. -/
def svcDeadErr (env : SvcEnv) (stop disable : List String) (serv : String) :
    Option (String × String) :=
  match env.stopRes serv with
  | some e => some (serv, e.msg)
  | none =>
    if serv ∈ stop then
      if env.runTimerOk serv then
        if serv ∈ disable then
          if env.enTimerOk serv then none else some (serv, stopEnMsg)
        else none
      else some (serv, stopRunMsg)
    else if serv ∈ disable then
      if env.enTimerOk serv then none else some (serv, stopEnMsg)
    else none

/-- Per-service `_timer` invocations of the `service_dead` loop body. -/
def svcDeadTimersOne (env : SvcEnv) (stop disable : List String) (timeout : Nat)
    (serv : String) : List TRec :=
  match env.stopRes serv with
  | some _ => []
  | none =>
    if serv ∈ stop then
      (⟨.runningQ, serv, false, timeout, stopRunMsg⟩ : TRec) ::
        (if env.runTimerOk serv ∧ serv ∈ disable then
          [(⟨.enabledQ, serv, false, 1, stopEnMsg⟩ : TRec)] else [])
    else if serv ∈ disable then [(⟨.enabledQ, serv, false, timeout, stopEnMsg⟩ : TRec)]
    else []

theorem svcDeadOne_prim (env : SvcEnv) (da : Option Bool) (stop disable : List String)
    (t : Nat) (serv : String) :
    (svcDeadStep env da stop disable t {} serv).prim =
      if (env.stopRes serv).isNone ∧ serv ∈ stop ∧ env.runTimerOk serv
      then [serv] else [] := by
  unfold svcDeadStep
  dsimp only
  repeat' split
  all_goals simp_all

theorem svcDeadOne_secd (env : SvcEnv) (da : Option Bool) (stop disable : List String)
    (t : Nat) (serv : String) :
    (svcDeadStep env da stop disable t {} serv).secd =
      if (env.stopRes serv).isNone ∧ serv ∈ disable ∧ (serv ∈ stop → env.runTimerOk serv) ∧
          env.enTimerOk serv
      then [serv] else [] := by
  unfold svcDeadStep
  dsimp only
  repeat' split
  all_goals simp_all

theorem svcDeadOne_errs (env : SvcEnv) (da : Option Bool) (stop disable : List String)
    (t : Nat) (serv : String) :
    (svcDeadStep env da stop disable t {} serv).errs =
      match svcDeadErr env stop disable serv with | some pr => [pr] | none => [] := by
  unfold svcDeadStep svcDeadErr
  dsimp only
  repeat' split
  all_goals simp_all

theorem svcDeadOne_timers (env : SvcEnv) (da : Option Bool) (stop disable : List String)
    (t : Nat) (serv : String) :
    (svcDeadStep env da stop disable t {} serv).timers =
      svcDeadTimersOne env stop disable t serv := by
  unfold svcDeadStep svcDeadTimersOne
  dsimp only
  repeat' split
  all_goals simp_all

/-! ### Prediction-accuracy lemmas (test run vs. real run on the same state) -/

theorem connResolve_of_targetOf (name connector : String) (target? : Option String)
    (test : Bool) (env : ConnEnv) (base : SRet (Option String)) (tgt : String)
    (hres : connTargetOf connector target? env = some tgt) :
    connResolve name connector target? test env base = .ok (.ok tgt) := by
  unfold connResolve
  cases target? with
  | none =>
    simp only [connTargetOf, Option.some.injEq] at hres
    subst hres
    rfl
  | some t =>
    simp only [connTargetOf] at hres
    by_cases hcol : hasColon t = true
    · rw [if_pos hcol] at hres
      simp only [Option.some.injEq] at hres
      subst hres
      simp [hcol]
    · rw [if_neg hcol] at hres
      rcases hpi : env.plugIface with e | oi
      · rw [hpi] at hres; simp at hres
      · rcases oi with _ | iface
        · rw [hpi] at hres; simp at hres
        · rcases hsq : env.slotsQ with e2 | slots
          · rw [hpi, hsq] at hres; simp at hres
          · rcases slots with _ | ⟨sl, rest⟩
            · rw [hpi, hsq] at hres; simp at hres
            · rcases rest with _ | ⟨s2, rest2⟩
              · rw [hpi, hsq] at hres
                simp only [Option.some.injEq] at hres
                subst hres
                simp [hcol, hpi, hsq]
              · rw [hpi, hsq] at hres; simp at hres

theorem connected_predict (name connector : String) (target? : Option String)
    (env : ConnEnv) (tgt : String) (curr post : List Conn)
    (hres : connTargetOf connector target? env = some tgt)
    (hconns : env.connsQ = .ok curr)
    (hnf : connFind curr connector (splitColon1 tgt).1 (splitColon1 tgt).2 = false)
    (hpost : env.connsPost = .ok post)
    (hf : connFind post connector (splitColon1 tgt).1 (splitColon1 tgt).2 = true) :
    (connected name connector target? false env).1.changes =
        some ((splitColon1 tgt).1 ++ ":" ++ (splitColon1 tgt).2) ∧
    (connected name connector target? true env).1.changes =
        some ((splitColon1 tgt).1 ++ ":" ++ (splitColon1 tgt).2) := by
  constructor
  · have h := connResolve_of_targetOf name connector target? false env
      ⟨name, some true, "The connection is already established", none⟩ tgt hres
    unfold connected connectedCore
    dsimp only
    rw [h, hconns]
    simp [hnf, hpost, hf]
  · have h := connResolve_of_targetOf name connector target? true env
      ⟨name, some true, "The connection is already established", none⟩ tgt hres
    unfold connected connectedCore
    dsimp only
    rw [h, hconns]
    simp [hnf]

theorem enabled_predict (name : String) (env : ToggleEnv)
    (hpre : env.isEnabledPre = .ok false) (hpost : env.isEnabledPost = .ok true) :
    (enabled name false env).1.changes = some name ∧
    (enabled name true env).1.changes = some name := by
  constructor
  · unfold enabled enabledCore
    rw [hpre, hpost]
    simp
  · unfold enabled enabledCore
    rw [hpre]
    simp

theorem disabled_predict (name : String) (env : ToggleEnv)
    (hpre : env.isEnabledPre = .ok true) (hpost : env.isEnabledPost = .ok false) :
    (disabled name false env).1.changes = some name ∧
    (disabled name true env).1.changes = some name := by
  constructor
  · unfold disabled disabledCore
    rw [hpre, hpost]
    simp
  · unfold disabled disabledCore
    rw [hpre]
    simp

theorem removed_predict (name : String) (purge : Bool) (env : RemoveEnv)
    (hpre : env.listPre = .ok true) (hpost : env.listPost = .ok false) :
    (removed name purge false env).1.changes = some name ∧
    (removed name purge true env).1.changes = some name := by
  constructor
  · unfold removed removedCore
    rw [hpre, hpost]
    simp
  · unfold removed removedCore
    rw [hpre]
    simp

theorem disconnected_predict (name connector : String) (target? : Option String)
    (env : DiscEnv) (tt : String × String) (curr post : List Conn)
    (hside : discSideOf env = .ok (some tt))
    (hconns : env.connsQ = .ok curr)
    (hd : discMatches curr name connector tt.2 tt.1 (discTgt target?) ≠ [])
    (hnd : (discMatches curr name connector tt.2 tt.1 (discTgt target?)).Nodup)
    (hpost : env.connsQ2 = .ok post)
    (hclean : discMatches post name connector tt.2 tt.1 (discTgt target?) = []) :
    (disconnected name connector target? false env).1.changes =
        some (tt.1 ++ "s",
          (discMatches curr name connector tt.2 tt.1 (discTgt target?)).map fmtPair) ∧
    (disconnected name connector target? true env).1.changes =
        some (tt.1 ++ "s",
          (discMatches curr name connector tt.2 tt.1 (discTgt target?)).map fmtPair) := by
  have hfilter : (dedupF (discMatches curr name connector tt.2 tt.1
      (discTgt target?))).filter (· ∉ ([] : List (String × String))) =
      discMatches curr name connector tt.2 tt.1 (discTgt target?) := by
    rw [dedupF_eq_self hnd]
    apply List.filter_eq_self.mpr
    intro a _
    simp
  constructor
  · unfold disconnected disconnectedCore
    rw [hside, hconns]
    dsimp only
    rw [hpost]
    simp [hd, hclean, dedupF_eq_self hnd]
  · unfold disconnected disconnectedCore
    rw [hside, hconns]
    dsimp only
    simp [hd]

theorem installedStage1_store (name : String) (revision? assertions? : Option String)
    (test : Bool) (env : InstEnv) (base : SRet InstChanges) :
    installedStage1 name revision? assertions? test env base false =
      .ok (.ok (name, revision?, [])) := by
  simp [installedStage1]

theorem installedCore_predict_real (name : String) (channel? revision? : Option String)
    (classic : Bool) (held? : Option Bool) (assertions? : Option String) (env : InstEnv)
    (curr? : Option SnapInfo) (c : InstChanges) (rev1 : Option String) (newCur : SnapInfo)
    (c2 : InstChanges) (rev2 : Option String)
    (hfile : strEndsWith name ".snap" = false)
    (hlist : env.listPre = .ok curr?)
    (hchk : instDiff name channel? revision? held? env.upgQ curr? false = .ok (c, rev1))
    (hnem : c.isEmpty = false)
    (hpost : env.listPost = .ok (some newCur))
    (hchk2 : instCheckChanges channel? rev1 held? env.upgQ2 newCur false = .ok (c2, rev2))
    (hem2 : c2.isEmpty = true) :
    ∃ ms, installedCore name channel? revision? classic held? assertions? false env =
      .ok (⟨name, some true, capitalize (instVerb curr?) ++ " the snap", c⟩, ms) := by
  unfold installedCore
  rw [hfile]
  dsimp only
  rw [installedStage1_store]
  dsimp only
  rw [hlist]
  dsimp only
  rw [hchk]
  obtain ⟨ci, cch, chl, crev⟩ := c
  dsimp only
  rw [hpost]
  dsimp only
  rw [hchk2]
  dsimp only
  repeat' split
  all_goals simp_all [InstChanges.isEmpty, InstChanges.prune]

theorem installed_predict (name : String) (channel? revision? : Option String)
    (classic : Bool) (held? : Option Bool) (assertions? : Option String) (env : InstEnv)
    (curr? : Option SnapInfo) (c : InstChanges) (rev1 : Option String) (newCur : SnapInfo)
    (c2 : InstChanges) (rev2 : Option String)
    (hfile : strEndsWith name ".snap" = false)
    (hlist : env.listPre = .ok curr?)
    (hchk : instDiff name channel? revision? held? env.upgQ curr? false = .ok (c, rev1))
    (hnem : c.isEmpty = false)
    (hpost : env.listPost = .ok (some newCur))
    (hchk2 : instCheckChanges channel? rev1 held? env.upgQ2 newCur false = .ok (c2, rev2))
    (hem2 : c2.isEmpty = true) :
    (installed name channel? revision? classic held? assertions? false env).1.changes = c ∧
    (installed name channel? revision? classic held? assertions? true env).1.changes = c := by
  constructor
  · obtain ⟨ms, hms⟩ := installedCore_predict_real name channel? revision? classic held?
      assertions? env curr? c rev1 newCur c2 rev2 hfile hlist hchk hnem hpost hchk2 hem2
    unfold installed
    rw [hms]
  · unfold installed installedCore
    rw [hfile]
    dsimp only
    rw [installedStage1_store]
    dsimp only
    rw [hlist]
    dsimp only
    rw [hchk]
    simp [hnem]

/-! ### Option fan-out loop characterization -/

/-- The default entry used for the (never-failing) `changes[opt]` lookups. -/
def optDflt : OptChange := ⟨none, none, false, false⟩

theorem optUnsetLoop_changes (name : String) (ch : OptChanges) (res : String → Option Err)
    (l : List String) :
    (optUnsetLoop name ch res l).1 =
      (l.filter (fun o => (res o).isNone)).map (fun o => (o, (ch.lookup o).getD optDflt)) := by
  induction l with
  | nil => rfl
  | cons o rest ih =>
    simp only [optUnsetLoop, List.filter_cons]
    cases h : res o <;> simp [h, ih, optDflt]

theorem optUnsetLoop_errs (name : String) (ch : OptChanges) (res : String → Option Err)
    (l : List String) :
    (optUnsetLoop name ch res l).2.1 =
      l.filterMap (fun o => (res o).map (fun e => (o, e.msg))) := by
  induction l with
  | nil => rfl
  | cons o rest ih =>
    simp only [optUnsetLoop, List.filterMap_cons]
    cases h : res o <;> simp [h, ih]

theorem optUnsetLoop_muts (name : String) (ch : OptChanges) (res : String → Option Err)
    (l : List String) :
    (optUnsetLoop name ch res l).2.2 = l.map (Mut.option_unset name) := by
  induction l with
  | nil => rfl
  | cons o rest ih =>
    simp only [optUnsetLoop]
    cases h : res o <;> simp [h, ih]

theorem optSetLoop_changes (name : String) (ch : OptChanges) (res : String → Option Err)
    (l : List String) :
    (optSetLoop name ch res l).1 =
      (l.filter (fun o => (res o).isNone)).map (fun o => (o, (ch.lookup o).getD optDflt)) := by
  induction l with
  | nil => rfl
  | cons o rest ih =>
    simp only [optSetLoop, List.filter_cons]
    cases h : res o <;> simp [h, ih, optDflt]

theorem optSetLoop_errs (name : String) (ch : OptChanges) (res : String → Option Err)
    (l : List String) :
    (optSetLoop name ch res l).2.1 =
      l.filterMap (fun o => (res o).map (fun e => (o, e.msg))) := by
  induction l with
  | nil => rfl
  | cons o rest ih =>
    simp only [optSetLoop, List.filterMap_cons]
    cases h : res o <;> simp [h, ih]

theorem optCheck_perm (desired : List (String × Option String))
    (data : List (String × String)) :
    List.Perm
      ((optCheckChanges desired data).2.2 ++ (optCheckChanges desired data).2.1)
      ((optCheckChanges desired data).1.map Prod.fst) := by
  induction desired with
  | nil => simp [optCheckChanges]
  | cons p rest ih =>
    obtain ⟨opt, val⟩ := p
    simp only [optCheckChanges]
    cases val with
    | none =>
      cases h : (data.lookup opt) with
      | none => simpa using ih
      | some old => simpa using ih.cons opt
    | some v =>
      cases h : (data.lookup opt) with
      | none =>
        simp only []
        exact List.perm_middle.trans (ih.cons opt)
      | some old =>
        by_cases hne : old ≠ v
        · simp only [if_pos hne]
          exact List.perm_middle.trans (ih.cons opt)
        · simpa [hne] using ih

theorem optCheck_keys_sublist (desired : List (String × Option String))
    (data : List (String × String)) :
    List.Sublist ((optCheckChanges desired data).1.map Prod.fst)
      (desired.map Prod.fst) := by
  induction desired with
  | nil => simp [optCheckChanges]
  | cons p rest ih =>
    obtain ⟨opt, val⟩ := p
    simp only [optCheckChanges, List.map_cons]
    cases val with
    | none =>
      cases data.lookup opt with
      | none => exact ih.trans (List.sublist_cons_self opt _)
      | some old => exact ih.cons₂ opt
    | some v =>
      cases data.lookup opt with
      | none => exact ih.cons₂ opt
      | some old =>
        by_cases hne : old ≠ v
        · simp only [if_pos hne]
          exact ih.cons₂ opt
        · simp only [if_neg hne]
          exact ih.trans (List.sublist_cons_self opt _)

theorem lookup_map_self (f : String → OptChange) (l : List String) (k : String) :
    (l.map (fun o => (o, f o))).lookup k = if k ∈ l then some (f k) else none := by
  induction l with
  | nil => simp
  | cons o rest ih =>
    by_cases hk : k = o
    · subst hk
      simp [List.lookup_cons]
    · have hbeq : (k == o) = false := by simpa using hk
      simp only [List.map_cons, List.lookup_cons, hbeq, List.mem_cons]
      rw [ih]
      by_cases hm : k ∈ rest <;> simp [hm, hk]

theorem lookup_eq_none_of_not_mem (cs : OptChanges) (k : String)
    (h : k ∉ cs.map Prod.fst) : cs.lookup k = none := by
  induction cs with
  | nil => rfl
  | cons p rest ih =>
    obtain ⟨a, b⟩ := p
    simp only [List.map_cons, List.mem_cons] at h
    push_neg at h
    have hbeq : (k == a) = false := by simpa using h.1
    simp only [List.lookup_cons, hbeq]
    exact ih h.2

theorem lookup_isSome_of_mem (cs : OptChanges) (k : String)
    (h : k ∈ cs.map Prod.fst) : ∃ v, cs.lookup k = some v := by
  induction cs with
  | nil => cases h
  | cons p rest ih =>
    obtain ⟨a, b⟩ := p
    simp only [List.map_cons, List.mem_cons] at h
    by_cases hk : k = a
    · subst hk
      exact ⟨b, by simp [List.lookup_cons]⟩
    · have hbeq : (k == a) = false := by simpa using hk
      simp only [List.lookup_cons, hbeq]
      exact ih (h.resolve_left hk)

/-- The accumulated changes of a fully successful apply loop look up equal to
the diff, provided the apply order is a permutation of the diff keys and the
diff keys have no duplicates. -/
theorem lookup_acc_eq_lookup (cs : OptChanges) (u : List String) (k : String)
    (hperm : List.Perm u (cs.map Prod.fst)) (hnd : (cs.map Prod.fst).Nodup) :
    ((u.map (fun o => (o, (cs.lookup o).getD optDflt))).lookup k) = cs.lookup k := by
  rw [lookup_map_self]
  by_cases hk : k ∈ u
  · rw [if_pos hk]
    obtain ⟨v, hv⟩ := lookup_isSome_of_mem cs k (hperm.mem_iff.mp hk)
    rw [hv]
    rfl
  · rw [if_neg hk]
    exact (lookup_eq_none_of_not_mem cs k (fun hm => hk (hperm.mem_iff.mpr hm))).symm

theorem option_managed_predict (name : String) (option? : Option String)
    (value? : Option (Option String)) (options? : Option (List (String × Option String)))
    (env : OptEnv) (data data2 : List (String × String))
    (hval : ((strTruthy option? && value?.isSome) || optsTruthy options?) = true)
    (hboth : ((strTruthy option? && value?.isSome) && optsTruthy options?) = false)
    (hopts : env.optsQ = .ok data)
    (hnd : ((optCheckChanges (optDesired option? value? options?) data).1.map
      Prod.fst).Nodup)
    (hch : (optCheckChanges (optDesired option? value? options?) data).1 ≠ [])
    (hu : ∀ o, env.unsetRes o = none) (hs : ∀ o, env.setRes o = none)
    (hpost : env.optsQ2 = .ok data2)
    (hclean : (optCheckChanges (optDesired option? value? options?) data2).1 = []) :
    ∀ k, ((option_managed name option? value? options? false env).1.changes).lookup k =
      ((option_managed name option? value? options? true env).1.changes).lookup k := by
  intro k
  have hperm := optCheck_perm (optDesired option? value? options?) data
  have hreal : (option_managed name option? value? options? false env).1.changes =
      ((optCheckChanges (optDesired option? value? options?) data).2.2 ++
        (optCheckChanges (optDesired option? value? options?) data).2.1).map
        (fun o => (o, ((optCheckChanges (optDesired option? value? options?) data).1.lookup o).getD optDflt)) := by
    have hfu : ∀ (l : List String), l.filter (fun o => (env.unsetRes o).isNone) = l :=
      fun l => List.filter_eq_self.mpr fun o _ => by rw [hu o]; rfl
    have hfs : ∀ (l : List String), l.filter (fun o => (env.setRes o).isNone) = l :=
      fun l => List.filter_eq_self.mpr fun o _ => by rw [hs o]; rfl
    have heu : ∀ (l : List String),
        l.filterMap (fun o => (env.unsetRes o).map fun e => (o, e.msg)) = [] := by
      intro l
      induction l with
      | nil => rfl
      | cons o rest ih => simp [List.filterMap_cons, hu o, ih]
    have hes : ∀ (l : List String),
        l.filterMap (fun o => (env.setRes o).map fun e => (o, e.msg)) = [] := by
      intro l
      induction l with
      | nil => rfl
      | cons o rest ih => simp [List.filterMap_cons, hs o, ih]
    unfold option_managed option_managedCore
    rw [hopts]
    dsimp only
    rw [optUnsetLoop_changes, optUnsetLoop_errs, optSetLoop_changes, optSetLoop_errs,
      hfu, hfs, heu, hes]
    simp [hval, hboth, hch, hpost, hclean, List.map_append]
  have htest : (option_managed name option? value? options? true env).1.changes =
      (optCheckChanges (optDesired option? value? options?) data).1 := by
    unfold option_managed option_managedCore
    rw [hopts]
    dsimp only
    simp [hval, hboth, hch]
  rw [hreal, htest]
  exact lookup_acc_eq_lookup _ _ k hperm hnd

theorem svcRunLoop_all_ok (env : SvcEnv) (ea : Option Bool) (start enable : List String)
    (timeout : Nat)
    (hstart : ∀ s, env.startRes s = none) (hrun : ∀ s, env.runTimerOk s = true)
    (hen : ∀ s, env.enTimerOk s = true) (hnds : start.Nodup) :
    ((dedupF (start ++ enable)).foldl (svcRunStep env ea start enable timeout) {}).prim =
      start ∧
    (∀ s, s ∈ ((dedupF (start ++ enable)).foldl
        (svcRunStep env ea start enable timeout) {}).secd ↔ s ∈ enable) ∧
    (((dedupF (start ++ enable)).foldl
        (svcRunStep env ea start enable timeout) {}).secd = [] ↔ enable = []) ∧
    ((dedupF (start ++ enable)).foldl
        (svcRunStep env ea start enable timeout) {}).errs = [] := by
  have happ := foldl_svcApp (svcRunStep env ea start enable timeout)
    (svcRunStep_app env ea start enable timeout) (dedupF (start ++ enable)) {}
  rw [happ, SvcAcc.empty_app]
  have hprim : (svcConcat ((dedupF (start ++ enable)).map
      (svcRunStep env ea start enable timeout {}))).prim =
      (dedupF (start ++ enable)).filter (· ∈ start) := by
    apply svcConcat_prim
    intro s
    rw [svcRunOne_prim]
    simp [hstart, hrun]
  have hsecd : (svcConcat ((dedupF (start ++ enable)).map
      (svcRunStep env ea start enable timeout {}))).secd =
      (dedupF (start ++ enable)).filter (· ∈ enable) := by
    apply svcConcat_secd
    intro s
    rw [svcRunOne_secd]
    simp [hstart, hrun, hen]
  have herrs : (svcConcat ((dedupF (start ++ enable)).map
      (svcRunStep env ea start enable timeout {}))).errs = [] := by
    rw [svcConcat_errs _ (svcRunErr env start enable)
      (fun s => svcRunOne_errs env ea start enable timeout s)]
    have hnone : ∀ s, svcRunErr env start enable s = none := by
      intro s
      unfold svcRunErr
      rw [hstart s]
      simp [hrun, hen]
    simp [hnone]
  refine ⟨?_, ?_, ?_, herrs⟩
  · rw [hprim]
    exact filter_dedupF_append_left enable hnds
  · intro s
    rw [hsecd]
    exact mem_filter_dedupF_append start enable s
  · rw [hsecd]
    constructor
    · intro hnil
      cases he : enable with
      | nil => rfl
      | cons e0 rest =>
        exfalso
        have : e0 ∈ (dedupF (start ++ enable)).filter (· ∈ enable) :=
          (mem_filter_dedupF_append start enable e0).mpr (he ▸ List.mem_cons_self e0 rest)
        rw [hnil] at this
        cases this
    · intro he
      subst he
      simp

theorem service_running_predict (name : String) (service? : Option String)
    (enabled? : Option Bool) (timeout : Nat) (env : SvcEnv)
    (services : List (String × SvcStatus)) (start enable : List String)
    (hq : env.servicesQ = .ok services) (hne : services ≠ [])
    (hkeys : (services.map Prod.fst).Nodup)
    (hse : check_service_changes services true
      (if enabled? = some true then some true else none) = (start, enable))
    (hstart : ∀ s, env.startRes s = none) (hrun : ∀ s, env.runTimerOk s = true)
    (hen : ∀ s, env.enTimerOk s = true)
    (hch : ¬ (start = [] ∧ enable = [])) :
    (service_running name service? enabled? timeout false env).1.changes.started =
      (service_running name service? enabled? timeout true env).1.changes.started ∧
    ((service_running name service? enabled? timeout false env).1.changes.enabled = none ↔
      (service_running name service? enabled? timeout true env).1.changes.enabled = none) ∧
    (∀ s,
      s ∈ ((service_running name service? enabled? timeout false env).1.changes.enabled).getD
        [] ↔
      s ∈ ((service_running name service? enabled? timeout true env).1.changes.enabled).getD
        []) := by
  have hnds : start.Nodup := by
    have h1 : start = (check_service_changes services true
        (if enabled? = some true then some true else none)).1 := by rw [hse]
    rw [h1]
    unfold check_service_changes
    exact ((List.filter_sublist services).map Prod.fst).nodup hkeys
  obtain ⟨hprim, hmem, hnil, herrs⟩ := svcRunLoop_all_ok env
    (if enabled? = some true then some true else none) start enable timeout
    hstart hrun hen hnds
  have hreal : (service_running name service? enabled? timeout false env).1.changes =
      srPrune
        { started := some start,
          enabled := some (((dedupF (start ++ enable)).foldl
            (svcRunStep env (if enabled? = some true then some true else none)
              start enable timeout) {}).secd) } := by
    unfold service_running service_runningCore
    rw [hq]
    dsimp only
    rw [hse]
    dsimp only
    rw [if_neg (by simpa using hne), if_neg hch]
    simp only [Bool.false_eq_true, if_false]
    rw [herrs]
    simp only [ne_eq, not_true, if_neg, if_false]
    simp [hprim]
  have htest : (service_running name service? enabled? timeout true env).1.changes =
      { started := if start ≠ [] then some start else none,
        enabled := if enable ≠ [] then some enable else none } := by
    unfold service_running service_runningCore
    rw [hq]
    dsimp only
    rw [hse]
    dsimp only
    rw [if_neg (by simpa using hne), if_neg hch]
    simp
  rw [hreal, htest]
  refine ⟨?_, ?_, ?_⟩
  · cases hs : start with
    | nil => simp [srPrune]
    | cons s0 rest => simp [srPrune]
  · cases hsl : ((dedupF (start ++ enable)).foldl
        (svcRunStep env (if enabled? = some true then some true else none)
          start enable timeout) {}).secd with
    | nil =>
      have he : enable = [] := hnil.mp hsl
      simp [srPrune, he]
    | cons x rest =>
      have he : enable ≠ [] := by
        intro h
        rw [hnil.mpr h] at hsl
        cases hsl
      simp [srPrune, he]
  · intro s
    cases hsl : ((dedupF (start ++ enable)).foldl
        (svcRunStep env (if enabled? = some true then some true else none)
          start enable timeout) {}).secd with
    | nil =>
      have he : enable = [] := hnil.mp hsl
      simp [srPrune, he]
    | cons x rest =>
      have he : enable ≠ [] := by
        intro h
        rw [hnil.mpr h] at hsl
        cases hsl
      have hm := hmem s
      rw [hsl] at hm
      simp only [srPrune, he, if_pos, ne_eq, not_false_iff]
      simp [hm, he]

theorem svcDeadLoop_all_ok (env : SvcEnv) (da : Option Bool) (stop disable : List String)
    (timeout : Nat)
    (hstop : ∀ s, env.stopRes s = none) (hrun : ∀ s, env.runTimerOk s = true)
    (hen : ∀ s, env.enTimerOk s = true) (hnds : stop.Nodup) :
    ((dedupF (stop ++ disable)).foldl (svcDeadStep env da stop disable timeout) {}).prim =
      stop ∧
    (∀ s, s ∈ ((dedupF (stop ++ disable)).foldl
        (svcDeadStep env da stop disable timeout) {}).secd ↔ s ∈ disable) ∧
    (((dedupF (stop ++ disable)).foldl
        (svcDeadStep env da stop disable timeout) {}).secd = [] ↔ disable = []) ∧
    ((dedupF (stop ++ disable)).foldl
        (svcDeadStep env da stop disable timeout) {}).errs = [] := by
  have happ := foldl_svcApp (svcDeadStep env da stop disable timeout)
    (svcDeadStep_app env da stop disable timeout) (dedupF (stop ++ disable)) {}
  rw [happ, SvcAcc.empty_app]
  have hprim : (svcConcat ((dedupF (stop ++ disable)).map
      (svcDeadStep env da stop disable timeout {}))).prim =
      (dedupF (stop ++ disable)).filter (· ∈ stop) := by
    apply svcConcat_prim
    intro s
    rw [svcDeadOne_prim]
    simp [hstop, hrun]
  have hsecd : (svcConcat ((dedupF (stop ++ disable)).map
      (svcDeadStep env da stop disable timeout {}))).secd =
      (dedupF (stop ++ disable)).filter (· ∈ disable) := by
    apply svcConcat_secd
    intro s
    rw [svcDeadOne_secd]
    simp [hstop, hrun, hen]
  have herrs : (svcConcat ((dedupF (stop ++ disable)).map
      (svcDeadStep env da stop disable timeout {}))).errs = [] := by
    rw [svcConcat_errs _ (svcDeadErr env stop disable)
      (fun s => svcDeadOne_errs env da stop disable timeout s)]
    have hnone : ∀ s, svcDeadErr env stop disable s = none := by
      intro s
      unfold svcDeadErr
      rw [hstop s]
      simp [hrun, hen]
    simp [hnone]
  refine ⟨?_, ?_, ?_, herrs⟩
  · rw [hprim]
    exact filter_dedupF_append_left disable hnds
  · intro s
    rw [hsecd]
    exact mem_filter_dedupF_append stop disable s
  · rw [hsecd]
    constructor
    · intro hnil
      cases he : disable with
      | nil => rfl
      | cons e0 rest =>
        exfalso
        have : e0 ∈ (dedupF (stop ++ disable)).filter (· ∈ disable) :=
          (mem_filter_dedupF_append stop disable e0).mpr (he ▸ List.mem_cons_self e0 rest)
        rw [hnil] at this
        cases this
    · intro he
      subst he
      simp

theorem service_dead_predict (name : String) (service? : Option String)
    (disabled? : Option Bool) (timeout : Nat) (env : SvcEnv)
    (services : List (String × SvcStatus)) (stop disable : List String)
    (hq : env.servicesQ = .ok services) (hne : services ≠ [])
    (hkeys : (services.map Prod.fst).Nodup)
    (hse : check_service_changes services false
      (if disabled? = some true then some false else none) = (stop, disable))
    (hstop : ∀ s, env.stopRes s = none) (hrun : ∀ s, env.runTimerOk s = true)
    (hen : ∀ s, env.enTimerOk s = true)
    (hch : ¬ (stop = [] ∧ disable = [])) :
    (service_dead name service? disabled? timeout false env).1.changes.stopped =
      (service_dead name service? disabled? timeout true env).1.changes.stopped ∧
    ((service_dead name service? disabled? timeout false env).1.changes.disabled = none ↔
      (service_dead name service? disabled? timeout true env).1.changes.disabled = none) ∧
    (∀ s,
      s ∈ ((service_dead name service? disabled? timeout false env).1.changes.disabled).getD
        [] ↔
      s ∈ ((service_dead name service? disabled? timeout true env).1.changes.disabled).getD
        []) := by
  have hnds : stop.Nodup := by
    have h1 : stop = (check_service_changes services false
        (if disabled? = some true then some false else none)).1 := by rw [hse]
    rw [h1]
    unfold check_service_changes
    exact ((List.filter_sublist services).map Prod.fst).nodup hkeys
  obtain ⟨hprim, hmem, hnil, herrs⟩ := svcDeadLoop_all_ok env
    (if disabled? = some true then some true else none) stop disable timeout
    hstop hrun hen hnds
  have hreal : (service_dead name service? disabled? timeout false env).1.changes =
      sdPrune
        { stopped := some stop,
          disabled := some (((dedupF (stop ++ disable)).foldl
            (svcDeadStep env disabled? stop disable timeout) {}).secd) } := by
    unfold service_dead service_deadCore
    rw [hq]
    dsimp only
    rw [hse]
    dsimp only
    rw [if_neg (by simpa using hne), if_neg hch]
    simp only [Bool.false_eq_true, if_false]
    obtain ⟨hprim2, hmem2, hnil2, herrs2⟩ := svcDeadLoop_all_ok env disabled? stop disable
      timeout hstop hrun hen hnds
    rw [herrs2]
    simp only [ne_eq, not_true, if_neg, if_false]
    simp [hprim2]
  have htest : (service_dead name service? disabled? timeout true env).1.changes =
      { stopped := if stop ≠ [] then some stop else none,
        disabled := if disable ≠ [] then some disable else none } := by
    unfold service_dead service_deadCore
    rw [hq]
    dsimp only
    rw [hse]
    dsimp only
    rw [if_neg (by simpa using hne), if_neg hch]
    simp
  obtain ⟨hprim2, hmem2, hnil2, herrs2⟩ := svcDeadLoop_all_ok env disabled? stop disable
    timeout hstop hrun hen hnds
  rw [hreal, htest]
  refine ⟨?_, ?_, ?_⟩
  · cases hs : stop with
    | nil => simp [sdPrune]
    | cons s0 rest => simp [sdPrune]
  · cases hsl : ((dedupF (stop ++ disable)).foldl
        (svcDeadStep env disabled? stop disable timeout) {}).secd with
    | nil =>
      have he : disable = [] := hnil2.mp hsl
      simp [sdPrune, he]
    | cons x rest =>
      have he : disable ≠ [] := by
        intro h
        rw [hnil2.mpr h] at hsl
        cases hsl
      simp [sdPrune, he]
  · intro s
    cases hsl : ((dedupF (stop ++ disable)).foldl
        (svcDeadStep env disabled? stop disable timeout) {}).secd with
    | nil =>
      have he : disable = [] := hnil2.mp hsl
      simp [sdPrune, he]
    | cons x rest =>
      have he : disable ≠ [] := by
        intro h
        rw [hnil2.mpr h] at hsl
        cases hsl
      have hm := hmem2 s
      rw [hsl] at hm
      simp only [sdPrune, he, if_pos, ne_eq, not_false_iff]
      simp [hm, he]

/-- C2: dry-run non-mutation and prediction accuracy. First half: with
`test=True`, no state operation ever performs a mutating provider call
(`snap.install`, `remove`, `connect`, `disconnect`, `enable`, `disable`,
`hold`, `unhold`, `option_set`, `option_unset`, `service_start`,
`service_stop`), on any path — the returned mutation log is empty. Second
half: a non-test invocation against the same backing state, when the applied
changes take effect and verification finds no residual diff, reports the
same changes mapping that the test run predicted. For `option_managed` the
mapping comparison is key-lookup equality (the real run applies unsets before
sets, which permutes insertion order without changing the mapping); for the
service states the `started`/`stopped` lists agree exactly and the
`enabled`/`disabled` lists agree as sets (the source iterates a Python `set`,
so their order is not semantic). -/
theorem claim_C2 :
    (∀ name connector target? env,
      (connected name connector target? true env).2 = []) ∧
    (∀ name connector target? env,
      (disconnected name connector target? true env).2 = []) ∧
    (∀ name env, (enabled name true env).2 = []) ∧
    (∀ name env, (disabled name true env).2 = []) ∧
    (∀ name purge env, (removed name purge true env).2 = []) ∧
    (∀ name channel? revision? classic held? assertions? env,
      (installed name channel? revision? classic held? assertions? true env).2 = []) ∧
    (∀ name option? value? options? env,
      (option_managed name option? value? options? true env).2 = []) ∧
    (∀ name service? enabled? timeout env,
      (service_running name service? enabled? timeout true env).2.1 = []) ∧
    (∀ name service? disabled? timeout env,
      (service_dead name service? disabled? timeout true env).2.1 = []) ∧
    (∀ name connector target? env tgt curr post,
      connTargetOf connector target? env = some tgt →
      env.connsQ = .ok curr →
      connFind curr connector (splitColon1 tgt).1 (splitColon1 tgt).2 = false →
      env.connsPost = .ok post →
      connFind post connector (splitColon1 tgt).1 (splitColon1 tgt).2 = true →
      (connected name connector target? false env).1.changes =
        (connected name connector target? true env).1.changes) ∧
    (∀ name connector target? env tt curr post,
      discSideOf env = .ok (some tt) →
      env.connsQ = .ok curr →
      discMatches curr name connector tt.2 tt.1 (discTgt target?) ≠ [] →
      (discMatches curr name connector tt.2 tt.1 (discTgt target?)).Nodup →
      env.connsQ2 = .ok post →
      discMatches post name connector tt.2 tt.1 (discTgt target?) = [] →
      (disconnected name connector target? false env).1.changes =
        (disconnected name connector target? true env).1.changes) ∧
    (∀ name env, env.isEnabledPre = .ok false → env.isEnabledPost = .ok true →
      (enabled name false env).1.changes = (enabled name true env).1.changes) ∧
    (∀ name env, env.isEnabledPre = .ok true → env.isEnabledPost = .ok false →
      (disabled name false env).1.changes = (disabled name true env).1.changes) ∧
    (∀ name purge env, env.listPre = .ok true → env.listPost = .ok false →
      (removed name purge false env).1.changes = (removed name purge true env).1.changes) ∧
    (∀ name channel? revision? classic held? assertions? env curr? c rev1 newCur c2 rev2,
      strEndsWith name ".snap" = false →
      env.listPre = .ok curr? →
      instDiff name channel? revision? held? env.upgQ curr? false = .ok (c, rev1) →
      c.isEmpty = false →
      env.listPost = .ok (some newCur) →
      instCheckChanges channel? rev1 held? env.upgQ2 newCur false = .ok (c2, rev2) →
      c2.isEmpty = true →
      (installed name channel? revision? classic held? assertions? false env).1.changes =
        (installed name channel? revision? classic held? assertions? true env).1.changes) ∧
    (∀ name option? value? options? env data data2,
      ((strTruthy option? && value?.isSome) || optsTruthy options?) = true →
      ((strTruthy option? && value?.isSome) && optsTruthy options?) = false →
      env.optsQ = .ok data →
      ((optCheckChanges (optDesired option? value? options?) data).1.map Prod.fst).Nodup →
      (optCheckChanges (optDesired option? value? options?) data).1 ≠ [] →
      (∀ o, env.unsetRes o = none) → (∀ o, env.setRes o = none) →
      env.optsQ2 = .ok data2 →
      (optCheckChanges (optDesired option? value? options?) data2).1 = [] →
      ∀ k, ((option_managed name option? value? options? false env).1.changes).lookup k =
        ((option_managed name option? value? options? true env).1.changes).lookup k) ∧
    (∀ name service? enabled? timeout env services start enable,
      env.servicesQ = .ok services → services ≠ [] →
      (services.map Prod.fst).Nodup →
      check_service_changes services true
        (if enabled? = some true then some true else none) = (start, enable) →
      (∀ s, env.startRes s = none) → (∀ s, env.runTimerOk s = true) →
      (∀ s, env.enTimerOk s = true) →
      ¬ (start = [] ∧ enable = []) →
      (service_running name service? enabled? timeout false env).1.changes.started =
        (service_running name service? enabled? timeout true env).1.changes.started ∧
      ((service_running name service? enabled? timeout false env).1.changes.enabled = none ↔
        (service_running name service? enabled? timeout true env).1.changes.enabled = none) ∧
      (∀ s, s ∈ ((service_running name service? enabled? timeout
          false env).1.changes.enabled).getD [] ↔
        s ∈ ((service_running name service? enabled? timeout
          true env).1.changes.enabled).getD [])) ∧
    (∀ name service? disabled? timeout env services stop disable,
      env.servicesQ = .ok services → services ≠ [] →
      (services.map Prod.fst).Nodup →
      check_service_changes services false
        (if disabled? = some true then some false else none) = (stop, disable) →
      (∀ s, env.stopRes s = none) → (∀ s, env.runTimerOk s = true) →
      (∀ s, env.enTimerOk s = true) →
      ¬ (stop = [] ∧ disable = []) →
      (service_dead name service? disabled? timeout false env).1.changes.stopped =
        (service_dead name service? disabled? timeout true env).1.changes.stopped ∧
      ((service_dead name service? disabled? timeout false env).1.changes.disabled = none ↔
        (service_dead name service? disabled? timeout true env).1.changes.disabled = none) ∧
      (∀ s, s ∈ ((service_dead name service? disabled? timeout
          false env).1.changes.disabled).getD [] ↔
        s ∈ ((service_dead name service? disabled? timeout
          true env).1.changes.disabled).getD [])) := by
  refine ⟨connected_test_noMut, disconnected_test_noMut, enabled_test_noMut,
    disabled_test_noMut, removed_test_noMut, installed_test_noMut,
    option_managed_test_noMut, service_running_test_noMut, service_dead_test_noMut,
    ?_, ?_, ?_, ?_, ?_, ?_, ?_, ?_, ?_⟩
  · intro name connector target? env tgt curr post h1 h2 h3 h4 h5
    obtain ⟨hr, ht⟩ := connected_predict name connector target? env tgt curr post h1 h2 h3 h4 h5
    rw [hr, ht]
  · intro name connector target? env tt curr post h1 h2 h3 h4 h5 h6
    obtain ⟨hr, ht⟩ := disconnected_predict name connector target? env tt curr post h1 h2 h3 h4 h5 h6
    rw [hr, ht]
  · intro name env h1 h2
    obtain ⟨hr, ht⟩ := enabled_predict name env h1 h2
    rw [hr, ht]
  · intro name env h1 h2
    obtain ⟨hr, ht⟩ := disabled_predict name env h1 h2
    rw [hr, ht]
  · intro name purge env h1 h2
    obtain ⟨hr, ht⟩ := removed_predict name purge env h1 h2
    rw [hr, ht]
  · intro name channel? revision? classic held? assertions? env curr? c rev1 newCur c2 rev2
      h1 h2 h3 h4 h5 h6 h7
    obtain ⟨hr, ht⟩ := installed_predict name channel? revision? classic held? assertions?
      env curr? c rev1 newCur c2 rev2 h1 h2 h3 h4 h5 h6 h7
    rw [hr, ht]
  · intro name option? value? options? env data data2 h1 h2 h3 h4 h5 h6 h7 h8 h9
    exact option_managed_predict name option? value? options? env data data2
      h1 h2 h3 h4 h5 h6 h7 h8 h9
  · intro name service? enabled? timeout env services start enable h1 h2 h3 h4 h5 h6 h7 h8
    exact service_running_predict name service? enabled? timeout env services start enable
      h1 h2 h3 h4 h5 h6 h7 h8
  · intro name service? disabled? timeout env services stop disable h1 h2 h3 h4 h5 h6 h7 h8
    exact service_dead_predict name service? disabled? timeout env services stop disable
      h1 h2 h3 h4 h5 h6 h7 h8

/-- Concrete backing state used by the C2 witness, one per operation. -/
def wConnEnv : ConnEnv := ⟨.ok none, .ok [], .ok [], .ok [⟨"n", "p", "c", "s"⟩]⟩

/-- Witness backing for `disconnected`. -/
def wDiscEnv : DiscEnv := ⟨.ok true, .ok false, .ok [⟨"n", "p", "t", "s"⟩], .ok []⟩

/-- Witness backing for `enabled`. -/
def wTogEnvE : ToggleEnv := ⟨.ok false, .ok true⟩

/-- Witness backing for `disabled`. -/
def wTogEnvD : ToggleEnv := ⟨.ok true, .ok false⟩

/-- Witness backing for `removed`. -/
def wRemEnv : RemoveEnv := ⟨.ok true, .ok false⟩

/-- Witness backing for `installed` (channel change `old` → `ch` applied). -/
def wInstEnv : InstEnv := ⟨true, true, .ok ⟨"n"⟩, .ok [], .ok [],
  .ok (some ⟨"old", "1", false⟩), .ok none, .ok (some ⟨"ch", "1", false⟩), .ok none⟩

/-- Witness backing for `option_managed` (option `a` set to `1`). -/
def wOptEnv : OptEnv := ⟨.ok [], (fun _ => none), (fun _ => none), .ok [("a", "1")]⟩

/-- Witness backing for `service_running` (service `svc` stopped/disabled). -/
def wSvcEnvR : SvcEnv := ⟨.ok [("svc", ⟨false, false⟩)], (fun _ => none), (fun _ => none),
  (fun _ => true), (fun _ => true)⟩

/-- Witness backing for `service_dead` (service `svc` running/enabled). -/
def wSvcEnvD : SvcEnv := ⟨.ok [("svc", ⟨true, true⟩)], (fun _ => none), (fun _ => none),
  (fun _ => true), (fun _ => true)⟩

/-- Witness for C2: each conjunct instantiated at a concrete backing state. -/
theorem claim_C2_witness :
    ((connected "n" "p" (some "c:s") true wConnEnv).2 = []) ∧
    ((disconnected "n" "p" none true wDiscEnv).2 = []) ∧
    ((enabled "n" true wTogEnvE).2 = []) ∧
    ((disabled "n" true wTogEnvD).2 = []) ∧
    ((removed "n" false true wRemEnv).2 = []) ∧
    ((installed "n" (some "ch") none false none none true wInstEnv).2 = []) ∧
    ((option_managed "n" none none (some [("a", some "1")]) true wOptEnv).2 = []) ∧
    ((service_running "n" none (some true) 10 true wSvcEnvR).2.1 = []) ∧
    ((service_dead "n" none (some true) 10 true wSvcEnvD).2.1 = []) ∧
    ((connected "n" "p" (some "c:s") false wConnEnv).1.changes =
      (connected "n" "p" (some "c:s") true wConnEnv).1.changes) ∧
    ((disconnected "n" "p" none false wDiscEnv).1.changes =
      (disconnected "n" "p" none true wDiscEnv).1.changes) ∧
    ((enabled "n" false wTogEnvE).1.changes = (enabled "n" true wTogEnvE).1.changes) ∧
    ((disabled "n" false wTogEnvD).1.changes = (disabled "n" true wTogEnvD).1.changes) ∧
    ((removed "n" false false wRemEnv).1.changes =
      (removed "n" false true wRemEnv).1.changes) ∧
    ((installed "n" (some "ch") none false none none false wInstEnv).1.changes =
      (installed "n" (some "ch") none false none none true wInstEnv).1.changes) ∧
    (((option_managed "n" none none (some [("a", some "1")]) false wOptEnv).1.changes).lookup
        "a" =
      ((option_managed "n" none none (some [("a", some "1")]) true wOptEnv).1.changes).lookup
        "a") ∧
    ((service_running "n" none (some true) 10 false wSvcEnvR).1.changes.started =
        (service_running "n" none (some true) 10 true wSvcEnvR).1.changes.started ∧
      (((service_running "n" none (some true) 10 false wSvcEnvR).1.changes.enabled = none) ↔
        ((service_running "n" none (some true) 10 true wSvcEnvR).1.changes.enabled = none)) ∧
      ("svc" ∈ ((service_running "n" none (some true) 10
          false wSvcEnvR).1.changes.enabled).getD [] ↔
        "svc" ∈ ((service_running "n" none (some true) 10
          true wSvcEnvR).1.changes.enabled).getD [])) ∧
    ((service_dead "n" none (some true) 10 false wSvcEnvD).1.changes.stopped =
        (service_dead "n" none (some true) 10 true wSvcEnvD).1.changes.stopped ∧
      (((service_dead "n" none (some true) 10 false wSvcEnvD).1.changes.disabled = none) ↔
        ((service_dead "n" none (some true) 10 true wSvcEnvD).1.changes.disabled = none)) ∧
      ("svc" ∈ ((service_dead "n" none (some true) 10
          false wSvcEnvD).1.changes.disabled).getD [] ↔
        "svc" ∈ ((service_dead "n" none (some true) 10
          true wSvcEnvD).1.changes.disabled).getD [])) := by
  obtain ⟨m1, m2, m3, m4, m5, m6, m7, m8, m9, p1, p2, p3, p4, p5, p6, p7, p8, p9⟩ := claim_C2
  refine ⟨m1 "n" "p" (some "c:s") wConnEnv, m2 "n" "p" none wDiscEnv, m3 "n" wTogEnvE,
    m4 "n" wTogEnvD, m5 "n" false wRemEnv, m6 "n" (some "ch") none false none none wInstEnv,
    m7 "n" none none (some [("a", some "1")]) wOptEnv,
    m8 "n" none (some true) 10 wSvcEnvR, m9 "n" none (some true) 10 wSvcEnvD,
    ?_, ?_, ?_, ?_, ?_, ?_, ?_, ?_, ?_⟩
  · exact p1 "n" "p" (some "c:s") wConnEnv "c:s" [] [⟨"n", "p", "c", "s"⟩]
      rfl rfl (by decide) rfl (by decide)
  · exact p2 "n" "p" none wDiscEnv ("slot", "plug") [⟨"n", "p", "t", "s"⟩] []
      rfl rfl (by decide) (by decide) rfl (by decide)
  · exact p3 "n" wTogEnvE rfl rfl
  · exact p4 "n" wTogEnvD rfl rfl
  · exact p5 "n" false wRemEnv rfl rfl
  · exact p6 "n" (some "ch") none false none none wInstEnv (some ⟨"old", "1", false⟩)
      { channel := some ("old", "ch") } none ⟨"ch", "1", false⟩ {} none
      (by decide) rfl rfl (by decide) rfl rfl (by decide)
  · exact p7 "n" none none (some [("a", some "1")]) wOptEnv [] [("a", "1")]
      (by decide) (by decide) rfl (by decide) (by decide) (fun o => rfl) (fun o => rfl)
      rfl (by decide) "a"
  · exact p8 "n" none (some true) 10 wSvcEnvR [("svc", ⟨false, false⟩)] ["svc"] ["svc"]
      rfl (by decide) (by decide) (by decide) (fun s => rfl) (fun s => rfl) (fun s => rfl)
      (by decide) |>.imp id (fun h => h.imp id (fun h2 => h2 "svc"))
  · exact p9 "n" none (some true) 10 wSvcEnvD [("svc", ⟨true, true⟩)] ["svc"] ["svc"]
      rfl (by decide) (by decide) (by decide) (fun s => rfl) (fun s => rfl) (fun s => rfl)
      (by decide) |>.imp id (fun h => h.imp id (fun h2 => h2 "svc"))

/-! ### C8: the shortened secondary timeout budget -/

theorem service_running_timers (name : String) (service? : Option String)
    (enabled? : Option Bool) (timeout : Nat) (env : SvcEnv)
    (services : List (String × SvcStatus)) (start enable : List String)
    (hq : env.servicesQ = .ok services) (hne : services ≠ [])
    (hse : check_service_changes services true
      (if enabled? = some true then some true else none) = (start, enable))
    (hch : ¬ (start = [] ∧ enable = [])) :
    (service_running name service? enabled? timeout false env).2.2 =
      (dedupF (start ++ enable)).flatMap (svcRunTimersOne env start enable timeout) := by
  unfold service_running service_runningCore
  rw [hq]
  dsimp only
  rw [hse]
  dsimp only
  rw [if_neg (by simpa using hne), if_neg hch]
  simp only [Bool.false_eq_true, if_false]
  generalize (if enabled? = some true then some true else none : Option Bool) = ea
  have htm : ((dedupF (start ++ enable)).foldl
      (svcRunStep env ea start enable timeout) {}).timers =
      (dedupF (start ++ enable)).flatMap (svcRunTimersOne env start enable timeout) := by
    rw [foldl_svcApp _ (svcRunStep_app env ea start enable timeout) _ {},
      SvcAcc.empty_app]
    exact svcConcat_timers _ _ (fun s => svcRunOne_timers env ea start enable timeout s) _
  split
  next r heq =>
    split at heq
    all_goals first
      | (injection heq with h; subst h; simpa using htm)
      | simp at heq
  next em heq =>
    split at heq
    · simp_all
    · simp at heq

theorem service_dead_timers (name : String) (service? : Option String)
    (disabled? : Option Bool) (timeout : Nat) (env : SvcEnv)
    (services : List (String × SvcStatus)) (stop disable : List String)
    (hq : env.servicesQ = .ok services) (hne : services ≠ [])
    (hse : check_service_changes services false
      (if disabled? = some true then some false else none) = (stop, disable))
    (hch : ¬ (stop = [] ∧ disable = [])) :
    (service_dead name service? disabled? timeout false env).2.2 =
      (dedupF (stop ++ disable)).flatMap (svcDeadTimersOne env stop disable timeout) := by
  have htm : ((dedupF (stop ++ disable)).foldl
      (svcDeadStep env disabled? stop disable timeout) {}).timers =
      (dedupF (stop ++ disable)).flatMap (svcDeadTimersOne env stop disable timeout) := by
    rw [foldl_svcApp _ (svcDeadStep_app env disabled? stop disable timeout) _ {},
      SvcAcc.empty_app]
    exact svcConcat_timers _ _ (fun s => svcDeadOne_timers env disabled? stop disable
      timeout s) _
  unfold service_dead service_deadCore
  rw [hq]
  dsimp only
  rw [hse]
  dsimp only
  rw [if_neg (by simpa using hne), if_neg hch]
  simp only [Bool.false_eq_true, if_false]
  split
  next r heq =>
    split at heq
    all_goals first
      | (injection heq with h; subst h; simpa using htm)
      | simp at heq
  next em heq =>
    split at heq
    · simp_all
    · simp at heq

theorem svcRunTimersOne_budget (env : SvcEnv) (start enable : List String) (timeout : Nat)
    (s : String) (tr : TRec) (htr : tr ∈ svcRunTimersOne env start enable timeout s) :
    (tr.fn = .enabledQ → tr.budget = if tr.serv ∈ start then 1 else timeout) ∧
    (tr.fn = .runningQ → tr.budget = timeout) := by
  unfold svcRunTimersOne at htr
  rcases hres : env.startRes s with _ | e
  · rw [hres] at htr
    dsimp only at htr
    by_cases hs : s ∈ start
    · rw [if_pos hs] at htr
      rcases List.mem_cons.mp htr with rfl | htr2
      · exact ⟨(fun hfn => nomatch hfn), fun _ => rfl⟩
      · by_cases hcond : env.runTimerOk s ∧ s ∈ enable
        · rw [if_pos hcond] at htr2
          rcases List.mem_singleton.mp htr2 with rfl
          exact ⟨(fun _ => by simp [hs]), (fun hfn => nomatch hfn)⟩
        · rw [if_neg hcond] at htr2
          cases htr2
    · rw [if_neg hs] at htr
      by_cases hen : s ∈ enable
      · rw [if_pos hen] at htr
        rcases List.mem_singleton.mp htr with rfl
        exact ⟨(fun _ => by simp [hs]), (fun hfn => nomatch hfn)⟩
      · rw [if_neg hen] at htr
        cases htr
  · rw [hres] at htr
    cases htr

theorem svcDeadTimersOne_budget (env : SvcEnv) (stop disable : List String) (timeout : Nat)
    (s : String) (tr : TRec) (htr : tr ∈ svcDeadTimersOne env stop disable timeout s) :
    (tr.fn = .enabledQ → tr.budget = if tr.serv ∈ stop then 1 else timeout) ∧
    (tr.fn = .runningQ → tr.budget = timeout) := by
  unfold svcDeadTimersOne at htr
  rcases hres : env.stopRes s with _ | e
  · rw [hres] at htr
    dsimp only at htr
    by_cases hs : s ∈ stop
    · rw [if_pos hs] at htr
      rcases List.mem_cons.mp htr with rfl | htr2
      · exact ⟨(fun hfn => nomatch hfn), fun _ => rfl⟩
      · by_cases hcond : env.runTimerOk s ∧ s ∈ disable
        · rw [if_pos hcond] at htr2
          rcases List.mem_singleton.mp htr2 with rfl
          exact ⟨(fun _ => by simp [hs]), (fun hfn => nomatch hfn)⟩
        · rw [if_neg hcond] at htr2
          cases htr2
    · rw [if_neg hs] at htr
      by_cases hen : s ∈ disable
      · rw [if_pos hen] at htr
        rcases List.mem_singleton.mp htr with rfl
        exact ⟨(fun _ => by simp [hs]), (fun hfn => nomatch hfn)⟩
      · rw [if_neg hen] at htr
        cases htr
  · rw [hres] at htr
    cases htr

/-- C8: shortened secondary timeout budget. In `service_running` (first four
conjuncts) every wait on the enabled-state condition uses a 1-second budget
when the service is also in the start list (it was just started) and the full
caller-supplied `timeout` otherwise, while every wait on the running-state
condition uses the full `timeout`; the two existence conjuncts show the
corresponding `_timer` invocations are actually made for a service whose
`snap.service_start` call succeeded (and, for the 1-second case, whose
running-state wait converged). The last four conjuncts state the symmetric
property for `service_dead` (disabled-state wait after a stop). The caller
default for `timeout` in the source is 10 seconds. -/
theorem claim_C8 (name : String) (service? : Option String) (timeout : Nat) (env : SvcEnv)
    (services : List (String × SvcStatus)) :
    (∀ enabled? start enable,
      env.servicesQ = .ok services → services ≠ [] →
      check_service_changes services true
        (if enabled? = some true then some true else none) = (start, enable) →
      ¬ (start = [] ∧ enable = []) →
      (∀ tr ∈ (service_running name service? enabled? timeout false env).2.2,
        (tr.fn = .enabledQ → tr.budget = if tr.serv ∈ start then 1 else timeout) ∧
        (tr.fn = .runningQ → tr.budget = timeout)) ∧
      (∀ serv, serv ∈ enable → serv ∈ start → env.startRes serv = none →
        env.runTimerOk serv = true →
        (⟨.enabledQ, serv, true, 1, startEnMsg⟩ : TRec) ∈
          (service_running name service? enabled? timeout false env).2.2) ∧
      (∀ serv, serv ∈ enable → serv ∉ start → env.startRes serv = none →
        (⟨.enabledQ, serv, true, timeout, startEnMsg⟩ : TRec) ∈
          (service_running name service? enabled? timeout false env).2.2)) ∧
    (∀ disabled? stop disable,
      env.servicesQ = .ok services → services ≠ [] →
      check_service_changes services false
        (if disabled? = some true then some false else none) = (stop, disable) →
      ¬ (stop = [] ∧ disable = []) →
      (∀ tr ∈ (service_dead name service? disabled? timeout false env).2.2,
        (tr.fn = .enabledQ → tr.budget = if tr.serv ∈ stop then 1 else timeout) ∧
        (tr.fn = .runningQ → tr.budget = timeout)) ∧
      (∀ serv, serv ∈ disable → serv ∈ stop → env.stopRes serv = none →
        env.runTimerOk serv = true →
        (⟨.enabledQ, serv, false, 1, stopEnMsg⟩ : TRec) ∈
          (service_dead name service? disabled? timeout false env).2.2) ∧
      (∀ serv, serv ∈ disable → serv ∉ stop → env.stopRes serv = none →
        (⟨.enabledQ, serv, false, timeout, stopEnMsg⟩ : TRec) ∈
          (service_dead name service? disabled? timeout false env).2.2)) := by
  constructor
  · intro enabled? start enable hq hne hse hch
    rw [service_running_timers name service? enabled? timeout env services start enable
      hq hne hse hch]
    refine ⟨?_, ?_, ?_⟩
    · intro tr htr
      obtain ⟨s, hsmem, htr1⟩ := List.mem_flatMap.mp htr
      exact svcRunTimersOne_budget env start enable timeout s tr htr1
    · intro serv hen hst hres hrun
      apply List.mem_flatMap.mpr
      refine ⟨serv, (mem_dedupF serv _).mpr (List.mem_append.mpr (.inl hst)), ?_⟩
      unfold svcRunTimersOne
      rw [hres]
      simp [hst, hen, hrun]
    · intro serv hen hst hres
      apply List.mem_flatMap.mpr
      refine ⟨serv, (mem_dedupF serv _).mpr (List.mem_append.mpr (.inr hen)), ?_⟩
      unfold svcRunTimersOne
      rw [hres]
      simp [hst, hen]
  · intro disabled? stop disable hq hne hse hch
    rw [service_dead_timers name service? disabled? timeout env services stop disable
      hq hne hse hch]
    refine ⟨?_, ?_, ?_⟩
    · intro tr htr
      obtain ⟨s, hsmem, htr1⟩ := List.mem_flatMap.mp htr
      exact svcDeadTimersOne_budget env stop disable timeout s tr htr1
    · intro serv hen hst hres hrun
      apply List.mem_flatMap.mpr
      refine ⟨serv, (mem_dedupF serv _).mpr (List.mem_append.mpr (.inl hst)), ?_⟩
      unfold svcDeadTimersOne
      rw [hres]
      simp [hst, hen, hrun]
    · intro serv hen hst hres
      apply List.mem_flatMap.mpr
      refine ⟨serv, (mem_dedupF serv _).mpr (List.mem_append.mpr (.inr hen)), ?_⟩
      unfold svcDeadTimersOne
      rw [hres]
      simp [hst, hen]

/-- Witness for C8 at the concrete backing states of the C2 witness: the
service needs both actions, so its enabled/disabled wait has budget 1. -/
theorem claim_C8_witness :
    ((⟨.enabledQ, "svc", true, 1, startEnMsg⟩ : TRec) ∈
      (service_running "n" none (some true) 10 false wSvcEnvR).2.2) ∧
    ((⟨.enabledQ, "svc", false, 1, stopEnMsg⟩ : TRec) ∈
      (service_dead "n" none (some true) 10 false wSvcEnvD).2.2) :=
  ⟨((claim_C8 "n" none 10 wSvcEnvR [("svc", ⟨false, false⟩)]).1 (some true) ["svc"] ["svc"]
      rfl (by decide) (by decide) (by decide)).2.1 "svc" (by decide) (by decide) rfl rfl,
   ((claim_C8 "n" none 10 wSvcEnvD [("svc", ⟨true, true⟩)]).2 (some true) ["svc"] ["svc"]
      rfl (by decide) (by decide) (by decide)).2.1 "svc" (by decide) (by decide) rfl rfl⟩

/-! ### C3: fan-out failure attribution -/

theorem strHasSub_trans {a b c : String} (h1 : strHasSub b a) (h2 : strHasSub c b) :
    strHasSub c a := h1.trans h2

/-- Per-option error entry of the `option_managed` unset/set loops. -/
def optErrOf (res : String → Option Err) (o : String) : Option (String × String) :=
  (res o).map fun e => (o, e.msg)

/-- The aggregated error list of the `option_managed` apply loop. -/
def optErrs (env : OptEnv) (to_unset to_set : List String) : List (String × String) :=
  to_unset.filterMap (optErrOf env.unsetRes) ++ to_set.filterMap (optErrOf env.setRes)

/-- The accumulated changes of the `option_managed` apply loop: the diffs of
the options whose provider call succeeded, unsets first. -/
def optAccOf (env : OptEnv) (changes : OptChanges) (to_unset to_set : List String) :
    OptChanges :=
  ((to_unset.filter (fun o => (env.unsetRes o).isNone)).map
    (fun o => (o, (changes.lookup o).getD optDflt))) ++
  ((to_set.filter (fun o => (env.setRes o).isNone)).map
    (fun o => (o, (changes.lookup o).getD optDflt)))

theorem option_managed_err (name : String) (option? : Option String)
    (value? : Option (Option String)) (options? : Option (List (String × Option String)))
    (env : OptEnv) (data : List (String × String))
    (hval : ((strTruthy option? && value?.isSome) || optsTruthy options?) = true)
    (hboth : ((strTruthy option? && value?.isSome) && optsTruthy options?) = false)
    (hopts : env.optsQ = .ok data)
    (herrs : optErrs env (optCheckChanges (optDesired option? value? options?) data).2.2
      (optCheckChanges (optDesired option? value? options?) data).2.1 ≠ []) :
    (option_managed name option? value? options? false env).1.result = some false ∧
    (option_managed name option? value? options? false env).1.comment =
      "Encountered some errors:\n" ++ joinWith "\n"
        ((optErrs env (optCheckChanges (optDesired option? value? options?) data).2.2
          (optCheckChanges (optDesired option? value? options?) data).2.1).map fmtErrPair) ∧
    (option_managed name option? value? options? false env).1.changes =
      optAccOf env (optCheckChanges (optDesired option? value? options?) data).1
        (optCheckChanges (optDesired option? value? options?) data).2.2
        (optCheckChanges (optDesired option? value? options?) data).2.1 := by
  have hch : (optCheckChanges (optDesired option? value? options?) data).1 ≠ [] := by
    intro hnil
    apply herrs
    have hperm := optCheck_perm (optDesired option? value? options?) data
    rw [hnil] at hperm
    simp only [List.map_nil] at hperm
    have := hperm.eq_nil
    have h1 : (optCheckChanges (optDesired option? value? options?) data).2.2 = [] :=
      List.append_eq_nil.mp this |>.1
    have h2 : (optCheckChanges (optDesired option? value? options?) data).2.1 = [] :=
      List.append_eq_nil.mp this |>.2
    rw [optErrs, h1, h2]
    rfl
  have herrs' : ((optCheckChanges (optDesired option? value? options?) data).2.2.filterMap
      (fun o => (env.unsetRes o).map fun e => (o, e.msg)) ++
      (optCheckChanges (optDesired option? value? options?) data).2.1.filterMap
      (fun o => (env.setRes o).map fun e => (o, e.msg))) ≠ [] := by
    simpa [optErrs, optErrOf] using herrs
  unfold option_managed option_managedCore
  rw [hopts]
  dsimp only
  rw [optUnsetLoop_changes, optUnsetLoop_errs, optSetLoop_changes, optSetLoop_errs]
  simp [hval, hboth, hch, herrs', optErrs, optErrOf, optAccOf]
  rfl

/-- Each aggregated fan-out error line is contained in the final comment. -/
theorem strHasSub_errLine {pre : String} {errs : List (String × String)}
    {pr : String × String} (hmem : pr ∈ errs) :
    strHasSub (pre ++ joinWith "\n" (errs.map fmtErrPair)) (fmtErrPair pr) :=
  strHasSub_appendL pre (strHasSub_joinWith "\n" (List.mem_map_of_mem fmtErrPair hmem))

/-- Primary-action success of one service in the `service_running` loop. -/
def svcPrimOkP (env : SvcEnv) (start : List String) (s : String) : Bool :=
  (env.startRes s).isNone && decide (s ∈ start) && env.runTimerOk s

/-- Full success of one service on the secondary (enable) axis. -/
def svcSecdOkP (env : SvcEnv) (start enable : List String) (s : String) : Bool :=
  (env.startRes s).isNone && decide (s ∈ enable) &&
    (!(decide (s ∈ start)) || env.runTimerOk s) && env.enTimerOk s

/-- Primary-action success of one service in the `service_dead` loop. -/
def svcDPrimOkP (env : SvcEnv) (stop : List String) (s : String) : Bool :=
  (env.stopRes s).isNone && decide (s ∈ stop) && env.runTimerOk s

/-- Full success of one service on the secondary (disable) axis. -/
def svcDSecdOkP (env : SvcEnv) (stop disable : List String) (s : String) : Bool :=
  (env.stopRes s).isNone && decide (s ∈ disable) &&
    (!(decide (s ∈ stop)) || env.runTimerOk s) && env.enTimerOk s

theorem service_running_err (name : String) (service? : Option String)
    (enabled? : Option Bool) (timeout : Nat) (env : SvcEnv)
    (services : List (String × SvcStatus)) (start enable : List String)
    (hq : env.servicesQ = .ok services) (hne : services ≠ [])
    (hse : check_service_changes services true
      (if enabled? = some true then some true else none) = (start, enable))
    (herrs : (dedupF (start ++ enable)).filterMap (svcRunErr env start enable) ≠ []) :
    (service_running name service? enabled? timeout false env).1.result = some false ∧
    (service_running name service? enabled? timeout false env).1.comment =
      "Encountered some errors:\n" ++ joinWith "\n"
        (((dedupF (start ++ enable)).filterMap (svcRunErr env start enable)).map
          fmtErrPair) ∧
    (service_running name service? enabled? timeout false env).1.changes =
      srPrune
        { started := some ((dedupF (start ++ enable)).filter (svcPrimOkP env start)),
          enabled := some ((dedupF (start ++ enable)).filter
            (svcSecdOkP env start enable)) } := by
  have hch : ¬ (start = [] ∧ enable = []) := by
    rintro ⟨h1, h2⟩
    subst h1
    subst h2
    exact herrs rfl
  unfold service_running service_runningCore
  rw [hq]
  dsimp only
  rw [hse]
  dsimp only
  rw [if_neg (by simpa using hne), if_neg hch]
  simp only [Bool.false_eq_true, if_false]
  generalize (if enabled? = some true then some true else none : Option Bool) = ea
  have hfold := foldl_svcApp (svcRunStep env ea start enable timeout)
    (svcRunStep_app env ea start enable timeout) (dedupF (start ++ enable)) {}
  have herr2 : ((dedupF (start ++ enable)).foldl
      (svcRunStep env ea start enable timeout) {}).errs =
      (dedupF (start ++ enable)).filterMap (svcRunErr env start enable) := by
    rw [hfold, SvcAcc.empty_app]
    exact svcConcat_errs _ _ (fun s => svcRunOne_errs env ea start enable timeout s) _
  have hprim2 : ((dedupF (start ++ enable)).foldl
      (svcRunStep env ea start enable timeout) {}).prim =
      (dedupF (start ++ enable)).filter (svcPrimOkP env start) := by
    rw [hfold, SvcAcc.empty_app]
    apply svcConcat_prim
    intro s
    rw [svcRunOne_prim]
    split <;> split <;> simp_all [svcPrimOkP]
  have hsecd2 : ((dedupF (start ++ enable)).foldl
      (svcRunStep env ea start enable timeout) {}).secd =
      (dedupF (start ++ enable)).filter (svcSecdOkP env start enable) := by
    rw [hfold, SvcAcc.empty_app]
    apply svcConcat_secd
    intro s
    rw [svcRunOne_secd]
    split <;> split <;> simp_all [svcSecdOkP, Decidable.imp_iff_not_or]
  rw [herr2, hprim2, hsecd2, if_pos herrs]
  exact ⟨rfl, rfl, rfl⟩

theorem service_dead_err (name : String) (service? : Option String)
    (disabled? : Option Bool) (timeout : Nat) (env : SvcEnv)
    (services : List (String × SvcStatus)) (stop disable : List String)
    (hq : env.servicesQ = .ok services) (hne : services ≠ [])
    (hse : check_service_changes services false
      (if disabled? = some true then some false else none) = (stop, disable))
    (herrs : (dedupF (stop ++ disable)).filterMap (svcDeadErr env stop disable) ≠ []) :
    (service_dead name service? disabled? timeout false env).1.result = some false ∧
    (service_dead name service? disabled? timeout false env).1.comment =
      "Encountered some errors:\n" ++ joinWith "\n"
        (((dedupF (stop ++ disable)).filterMap (svcDeadErr env stop disable)).map
          fmtErrPair) ∧
    (service_dead name service? disabled? timeout false env).1.changes =
      sdPrune
        { stopped := some ((dedupF (stop ++ disable)).filter (svcDPrimOkP env stop)),
          disabled := some ((dedupF (stop ++ disable)).filter
            (svcDSecdOkP env stop disable)) } := by
  have hch : ¬ (stop = [] ∧ disable = []) := by
    rintro ⟨h1, h2⟩
    subst h1
    subst h2
    exact herrs rfl
  unfold service_dead service_deadCore
  rw [hq]
  dsimp only
  rw [hse]
  dsimp only
  rw [if_neg (by simpa using hne), if_neg hch]
  simp only [Bool.false_eq_true, if_false]
  have hfold := foldl_svcApp (svcDeadStep env disabled? stop disable timeout)
    (svcDeadStep_app env disabled? stop disable timeout) (dedupF (stop ++ disable)) {}
  have herr2 : ((dedupF (stop ++ disable)).foldl
      (svcDeadStep env disabled? stop disable timeout) {}).errs =
      (dedupF (stop ++ disable)).filterMap (svcDeadErr env stop disable) := by
    rw [hfold, SvcAcc.empty_app]
    exact svcConcat_errs _ _ (fun s => svcDeadOne_errs env disabled? stop disable timeout s) _
  have hprim2 : ((dedupF (stop ++ disable)).foldl
      (svcDeadStep env disabled? stop disable timeout) {}).prim =
      (dedupF (stop ++ disable)).filter (svcDPrimOkP env stop) := by
    rw [hfold, SvcAcc.empty_app]
    apply svcConcat_prim
    intro s
    rw [svcDeadOne_prim]
    split <;> split <;> simp_all [svcDPrimOkP]
  have hsecd2 : ((dedupF (stop ++ disable)).foldl
      (svcDeadStep env disabled? stop disable timeout) {}).secd =
      (dedupF (stop ++ disable)).filter (svcDSecdOkP env stop disable) := by
    rw [hfold, SvcAcc.empty_app]
    apply svcConcat_secd
    intro s
    rw [svcDeadOne_secd]
    split <;> split <;> simp_all [svcDSecdOkP, Decidable.imp_iff_not_or]
  rw [herr2, hprim2, hsecd2, if_pos herrs]
  exact ⟨rfl, rfl, rfl⟩

/-- Environment refuting the exact-attribution reading of C3: one service
needing start and enable; the start converges but the enable wait fails. -/
def c3Env : SvcEnv :=
  ⟨.ok [("a", ⟨false, false⟩)], fun _ => none, fun _ => none, fun _ => true, fun _ => false⟩

/-- claim_C3 counterexample: `service_running` over one sub-service `"a"`
that needs starting and enabling, where the enable wait fails. Every
sub-item fails (the failed set is K = \x7b"a"\x7d, the successful set is
empty), yet the returned changes mapping reports `started: ["a"]` — the
partial primary diff of the failed sub-item. So the changes mapping does
not contain exactly the diffs of the successful sub-items, refuting the
claim; result and comment behave as claimed. -/
theorem claim_C3_counterexample :
    (dedupF (["a"] ++ ["a"])).filterMap (svcRunErr c3Env ["a"] ["a"]) =
      [("a", startEnMsg)] ∧
    (service_running "n" none (some true) 10 false c3Env).1.result = some false ∧
    (service_running "n" none (some true) 10 false c3Env).1.changes =
      { started := some ["a"], enabled := none } ∧
    strHasSub (service_running "n" none (some true) 10 false c3Env).1.comment
      ("a" ++ ": " ++ startEnMsg) := by
  refine ⟨rfl, rfl, rfl, ?_⟩
  decide

/-- C3, corrected. Partial-failure attribution: when some sub-items of a
fan-out operation fail, the result is False and the comment names each
failed sub-item with its error, but the returned changes mapping is
exactly-the-successes only for `option_managed`; for `service_running` and
`service_dead` it additionally keeps, under the primary key
(`started`/`stopped`), sub-services whose primary action converged even if
their secondary action then failed, so a failed sub-item can still
contribute a partial diff. Formally: `option_managed`'s changes are the
diffs of exactly the options whose provider call succeeded; the service
states' changes are the primary-success filter under the primary key and
the full-success filter under the secondary key (empty keys popped). -/
theorem claim_C3 :
    (∀ (name : String) (option? : Option String) (value? : Option (Option String))
      (options? : Option (List (String × Option String))) (env : OptEnv)
      (data : List (String × String)),
      ((strTruthy option? && value?.isSome) || optsTruthy options?) = true →
      ((strTruthy option? && value?.isSome) && optsTruthy options?) = false →
      env.optsQ = .ok data →
      optErrs env (optCheckChanges (optDesired option? value? options?) data).2.2
        (optCheckChanges (optDesired option? value? options?) data).2.1 ≠ [] →
      (option_managed name option? value? options? false env).1.result = some false ∧
      (option_managed name option? value? options? false env).1.changes =
        optAccOf env (optCheckChanges (optDesired option? value? options?) data).1
          (optCheckChanges (optDesired option? value? options?) data).2.2
          (optCheckChanges (optDesired option? value? options?) data).2.1 ∧
      ∀ pr ∈ optErrs env (optCheckChanges (optDesired option? value? options?) data).2.2
          (optCheckChanges (optDesired option? value? options?) data).2.1,
        strHasSub (option_managed name option? value? options? false env).1.comment
          (fmtErrPair pr)) ∧
    (∀ (name : String) (service? : Option String) (enabled? : Option Bool)
      (timeout : Nat) (env : SvcEnv) (services : List (String × SvcStatus))
      (start enable : List String),
      env.servicesQ = .ok services → services ≠ [] →
      check_service_changes services true
        (if enabled? = some true then some true else none) = (start, enable) →
      (dedupF (start ++ enable)).filterMap (svcRunErr env start enable) ≠ [] →
      (service_running name service? enabled? timeout false env).1.result = some false ∧
      (service_running name service? enabled? timeout false env).1.changes =
        srPrune
          { started := some ((dedupF (start ++ enable)).filter (svcPrimOkP env start)),
            enabled := some ((dedupF (start ++ enable)).filter
              (svcSecdOkP env start enable)) } ∧
      ∀ pr ∈ (dedupF (start ++ enable)).filterMap (svcRunErr env start enable),
        strHasSub (service_running name service? enabled? timeout false env).1.comment
          (fmtErrPair pr)) ∧
    (∀ (name : String) (service? : Option String) (disabled? : Option Bool)
      (timeout : Nat) (env : SvcEnv) (services : List (String × SvcStatus))
      (stop disable : List String),
      env.servicesQ = .ok services → services ≠ [] →
      check_service_changes services false
        (if disabled? = some true then some false else none) = (stop, disable) →
      (dedupF (stop ++ disable)).filterMap (svcDeadErr env stop disable) ≠ [] →
      (service_dead name service? disabled? timeout false env).1.result = some false ∧
      (service_dead name service? disabled? timeout false env).1.changes =
        sdPrune
          { stopped := some ((dedupF (stop ++ disable)).filter (svcDPrimOkP env stop)),
            disabled := some ((dedupF (stop ++ disable)).filter
              (svcDSecdOkP env stop disable)) } ∧
      ∀ pr ∈ (dedupF (stop ++ disable)).filterMap (svcDeadErr env stop disable),
        strHasSub (service_dead name service? disabled? timeout false env).1.comment
          (fmtErrPair pr)) := by
  refine ⟨?_, ?_, ?_⟩
  · intro name option? value? options? env data hval hboth hopts herrs
    obtain ⟨h1, h2, h3⟩ :=
      option_managed_err name option? value? options? env data hval hboth hopts herrs
    refine ⟨h1, h3, ?_⟩
    intro pr hmem
    rw [h2]
    exact strHasSub_errLine hmem
  · intro name service? enabled? timeout env services start enable hq hne hse herrs
    obtain ⟨h1, h2, h3⟩ :=
      service_running_err name service? enabled? timeout env services start enable
        hq hne hse herrs
    refine ⟨h1, h3, ?_⟩
    intro pr hmem
    rw [h2]
    exact strHasSub_errLine hmem
  · intro name service? disabled? timeout env services stop disable hq hne hse herrs
    obtain ⟨h1, h2, h3⟩ :=
      service_dead_err name service? disabled? timeout env services stop disable
        hq hne hse herrs
    refine ⟨h1, h3, ?_⟩
    intro pr hmem
    rw [h2]
    exact strHasSub_errLine hmem

/-- Environment for the `option_managed` leg of the C3 witness: setting the
single desired option fails. -/
def c3OptEnv : OptEnv :=
  ⟨.ok [], fun _ => some ⟨"ue"⟩, fun _ => some ⟨"se"⟩, .ok []⟩

/-- Environment for the `service_dead` leg of the C3 witness. -/
def c3dEnv : SvcEnv :=
  ⟨.ok [("a", ⟨true, true⟩)], fun _ => none, fun _ => none, fun _ => true, fun _ => false⟩

/-- claim_C3 witness at concrete inputs for all three fan-out operations. -/
theorem claim_C3_witness :
    ((option_managed "n" (some "k") (some (some "v")) none false c3OptEnv).1.result =
      some false ∧
     strHasSub (option_managed "n" (some "k") (some (some "v")) none false
       c3OptEnv).1.comment (fmtErrPair ("k", "se"))) ∧
    ((service_running "n" none (some true) 10 false c3Env).1.result = some false ∧
     strHasSub (service_running "n" none (some true) 10 false c3Env).1.comment
       (fmtErrPair ("a", startEnMsg))) ∧
    ((service_dead "n" none (some true) 10 false c3dEnv).1.result = some false ∧
     strHasSub (service_dead "n" none (some true) 10 false c3dEnv).1.comment
       (fmtErrPair ("a", stopEnMsg))) := by
  have h1 := claim_C3.1 "n" (some "k") (some (some "v")) none c3OptEnv []
    (by decide) (by decide) rfl (by decide)
  have h2 := claim_C3.2.1 "n" none (some true) 10 c3Env [("a", ⟨false, false⟩)]
    ["a"] ["a"] rfl (by decide) (by decide) (by decide)
  have h3 := claim_C3.2.2 "n" none (some true) 10 c3dEnv [("a", ⟨true, true⟩)]
    ["a"] ["a"] rfl (by decide) (by decide) (by decide)
  exact ⟨⟨h1.1, h1.2.2 ("k", "se") (by decide)⟩,
    ⟨h2.1, h2.2.2 ("a", startEnMsg) (by decide)⟩,
    ⟨h3.1, h3.2.2 ("a", stopEnMsg) (by decide)⟩⟩

/-! ### C5: verification pruning -/

/-- Each key of a rendered JSON object occurs in the rendering. -/
theorem strHasSub_jsonObj_key {ps : List (String × String)} {p : String × String}
    (hmem : p ∈ ps) : strHasSub (jsonObj ps) p.1 := by
  unfold jsonObj
  apply strHasSub_appendR "\x7d"
  apply strHasSub_appendL "\x7b"
  refine strHasSub_trans ?_ (strHasSub_joinWith ", " (List.mem_map_of_mem jsonPair hmem))
  unfold jsonPair
  apply strHasSub_appendR
  apply strHasSub_appendR
  apply strHasSub_appendL
  exact strHasSub_refl p.1

theorem optPairs_keys (cs : OptChanges) : (optPairs cs).map Prod.fst = cs.map Prod.fst := by
  simp [optPairs]

/-- Residual branch of `installed`: the post-apply re-diff is non-empty. -/
theorem installedCore_resid (name : String) (channel? revision? : Option String)
    (classic : Bool) (held? : Option Bool) (assertions? : Option String) (env : InstEnv)
    (curr? : Option SnapInfo) (c : InstChanges) (rev1 : Option String) (newCur : SnapInfo)
    (c2 : InstChanges) (rev2 : Option String)
    (hfile : strEndsWith name ".snap" = false)
    (hlist : env.listPre = .ok curr?)
    (hchk : instDiff name channel? revision? held? env.upgQ curr? false = .ok (c, rev1))
    (hnem : c.isEmpty = false)
    (hpost : env.listPost = .ok (some newCur))
    (hchk2 : instCheckChanges channel? rev1 held? env.upgQ2 newCur false = .ok (c2, rev2))
    (hnem2 : c2.isEmpty = false) :
    ∃ ms, installedCore name channel? revision? classic held? assertions? false env =
      .ok (⟨name, some false,
        capitalize (instVerb curr?) ++ " the snap, but there are still pending changes: " ++
          jsonObj c2.pairs, c.prune c2⟩, ms) := by
  unfold installedCore
  rw [hfile]
  dsimp only
  rw [installedStage1_store]
  dsimp only
  rw [hlist]
  dsimp only
  rw [hchk]
  obtain ⟨ci, cch, chl, crev⟩ := c
  dsimp only
  rw [hpost]
  dsimp only
  rw [hchk2]
  dsimp only
  repeat' split
  all_goals simp_all [InstChanges.isEmpty, InstChanges.prune]

/-- Residual branch of `option_managed`: applying succeeded for every option
but the post-apply re-diff is non-empty. -/
theorem option_managed_resid (name : String) (option? : Option String)
    (value? : Option (Option String)) (options? : Option (List (String × Option String)))
    (env : OptEnv) (data data2 : List (String × String))
    (hval : ((strTruthy option? && value?.isSome) || optsTruthy options?) = true)
    (hboth : ((strTruthy option? && value?.isSome) && optsTruthy options?) = false)
    (hopts : env.optsQ = .ok data)
    (hch : (optCheckChanges (optDesired option? value? options?) data).1 ≠ [])
    (hok : optErrs env (optCheckChanges (optDesired option? value? options?) data).2.2
      (optCheckChanges (optDesired option? value? options?) data).2.1 = [])
    (hpost : env.optsQ2 = .ok data2)
    (hres2 : (optCheckChanges (optDesired option? value? options?) data2).1 ≠ []) :
    (option_managed name option? value? options? false env).1.result = some false ∧
    (option_managed name option? value? options? false env).1.comment =
      "Modified some snap options, but there are still pending changes: " ++
        jsonObj (optPairs (optCheckChanges (optDesired option? value? options?) data2).1) ∧
    (option_managed name option? value? options? false env).1.changes =
      (optAccOf env (optCheckChanges (optDesired option? value? options?) data).1
        (optCheckChanges (optDesired option? value? options?) data).2.2
        (optCheckChanges (optDesired option? value? options?) data).2.1).filter
        (fun p => (((optCheckChanges (optDesired option? value? options?)
          data2).1).lookup p.1).isNone) := by
  have hok' : ((optCheckChanges (optDesired option? value? options?) data).2.2.filterMap
      (fun o => (env.unsetRes o).map fun e => (o, e.msg)) ++
      (optCheckChanges (optDesired option? value? options?) data).2.1.filterMap
      (fun o => (env.setRes o).map fun e => (o, e.msg))) = [] := by
    simpa [optErrs, optErrOf] using hok
  unfold option_managed option_managedCore
  rw [hopts]
  dsimp only
  rw [optUnsetLoop_changes, optUnsetLoop_errs, optSetLoop_changes, optSetLoop_errs, hok']
  simp [hval, hboth, hch, hpost, hres2, optAccOf]

/-- Residual branch of `disconnected`: some matching connections survive the
disconnect call. -/
theorem disconnected_resid (name connector : String) (target? : Option String)
    (env : DiscEnv) (typ this : String) (curr currNew : List Conn)
    (hside : discSideOf env = .ok (some (typ, this)))
    (hconn : env.connsQ = .ok curr)
    (hdis : discMatches curr name connector this typ (discTgt target?) ≠ [])
    (hconn2 : env.connsQ2 = .ok currNew)
    (hstill : discMatches currNew name connector this typ (discTgt target?) ≠ []) :
    (disconnected name connector target? false env).1.result = some false ∧
    (disconnected name connector target? false env).1.comment =
      "Tried to disconnect some " ++ typ ++ "s, but some connections remained" ∧
    (disconnected name connector target? false env).1.changes =
      (if ((dedupF (discMatches curr name connector this typ (discTgt target?))).filter
          (· ∉ discMatches currNew name connector this typ (discTgt target?))) ≠ []
       then some (typ ++ "s",
         ((dedupF (discMatches curr name connector this typ (discTgt target?))).filter
           (· ∉ discMatches currNew name connector this typ (discTgt target?))).map fmtPair)
       else none) := by
  unfold disconnected disconnectedCore
  rw [hside]
  dsimp only
  rw [hconn]
  dsimp only
  rw [if_neg hdis]
  simp only [Bool.false_eq_true, if_false]
  rw [hconn2]
  dsimp only
  rw [if_pos hstill]
  exact ⟨rfl, rfl, rfl⟩

/-- Environment refuting the naming half of C5 for `disconnected`: one
matching connection (peer side `peerz:entz`) survives the disconnect. -/
def c5Env : DiscEnv :=
  ⟨.ok true, .ok false, .ok [⟨"foo", "bar", "peerz", "entz"⟩],
   .ok [⟨"foo", "bar", "peerz", "entz"⟩]⟩

/-- claim_C5 counterexample: `disconnected` with a non-empty post-apply
re-diff (the connection to `peerz:entz` remained). The result is False and
nothing non-converged is reported in the changes, as claimed — but the
comment is the fixed string `"Tried to disconnect some slots, but some
connections remained"`, which does not name the residual connection
(`peerz` does not occur in it), refuting "a message naming the residual
fields" for `disconnected`. -/
theorem claim_C5_counterexample :
    (disconnected "foo" "bar" none false c5Env).1.result = some false ∧
    (disconnected "foo" "bar" none false c5Env).1.comment =
      "Tried to disconnect some slots, but some connections remained" ∧
    ¬ strHasSub (disconnected "foo" "bar" none false c5Env).1.comment "peerz" ∧
    (disconnected "foo" "bar" none false c5Env).1.changes = none := by
  refine ⟨rfl, rfl, ?_, rfl⟩
  decide

/-- C5, corrected. Verification pruning: when the post-apply re-diff is
non-empty, the result is False and every non-converged field is removed
from the returned changes (`installed` prunes each re-diff key,
`option_managed` drops entries whose key reappears in the re-diff,
`disconnected` reports only endpoints that actually disconnected), so the
final report never claims a change that did not stick. The message names
the residual fields for `installed` and `option_managed` (the re-diff is
serialized into it), but `disconnected` uses a fixed generic message that
does not name the remaining connections. -/
theorem claim_C5 :
    (∀ (name : String) (channel? revision? : Option String) (classic : Bool)
      (held? : Option Bool) (assertions? : Option String) (env : InstEnv)
      (curr? : Option SnapInfo) (c : InstChanges) (rev1 : Option String)
      (newCur : SnapInfo) (c2 : InstChanges) (rev2 : Option String),
      strEndsWith name ".snap" = false →
      env.listPre = .ok curr? →
      instDiff name channel? revision? held? env.upgQ curr? false = .ok (c, rev1) →
      c.isEmpty = false →
      env.listPost = .ok (some newCur) →
      instCheckChanges channel? rev1 held? env.upgQ2 newCur false = .ok (c2, rev2) →
      c2.isEmpty = false →
      (installed name channel? revision? classic held? assertions? false env).1.result =
        some false ∧
      (∀ k ∈ c2.keys,
        strHasSub (installed name channel? revision? classic held? assertions?
          false env).1.comment k) ∧
      (installed name channel? revision? classic held? assertions? false env).1.changes =
        c.prune c2) ∧
    (∀ (name : String) (option? : Option String) (value? : Option (Option String))
      (options? : Option (List (String × Option String))) (env : OptEnv)
      (data data2 : List (String × String)),
      ((strTruthy option? && value?.isSome) || optsTruthy options?) = true →
      ((strTruthy option? && value?.isSome) && optsTruthy options?) = false →
      env.optsQ = .ok data →
      (optCheckChanges (optDesired option? value? options?) data).1 ≠ [] →
      optErrs env (optCheckChanges (optDesired option? value? options?) data).2.2
        (optCheckChanges (optDesired option? value? options?) data).2.1 = [] →
      env.optsQ2 = .ok data2 →
      (optCheckChanges (optDesired option? value? options?) data2).1 ≠ [] →
      (option_managed name option? value? options? false env).1.result = some false ∧
      (∀ k ∈ ((optCheckChanges (optDesired option? value? options?) data2).1).map
          Prod.fst,
        strHasSub (option_managed name option? value? options? false env).1.comment k) ∧
      (option_managed name option? value? options? false env).1.changes =
        (optAccOf env (optCheckChanges (optDesired option? value? options?) data).1
          (optCheckChanges (optDesired option? value? options?) data).2.2
          (optCheckChanges (optDesired option? value? options?) data).2.1).filter
          (fun p => (((optCheckChanges (optDesired option? value? options?)
            data2).1).lookup p.1).isNone)) ∧
    (∀ (name connector : String) (target? : Option String) (env : DiscEnv)
      (typ this : String) (curr currNew : List Conn),
      discSideOf env = .ok (some (typ, this)) →
      env.connsQ = .ok curr →
      discMatches curr name connector this typ (discTgt target?) ≠ [] →
      env.connsQ2 = .ok currNew →
      discMatches currNew name connector this typ (discTgt target?) ≠ [] →
      (disconnected name connector target? false env).1.result = some false ∧
      (disconnected name connector target? false env).1.comment =
        "Tried to disconnect some " ++ typ ++ "s, but some connections remained" ∧
      (disconnected name connector target? false env).1.changes =
        (if ((dedupF (discMatches curr name connector this typ (discTgt target?))).filter
            (· ∉ discMatches currNew name connector this typ (discTgt target?))) ≠ []
         then some (typ ++ "s",
           ((dedupF (discMatches curr name connector this typ (discTgt target?))).filter
             (· ∉ discMatches currNew name connector this typ (discTgt target?))).map
             fmtPair)
         else none)) := by
  refine ⟨?_, ?_, ?_⟩
  · intro name channel? revision? classic held? assertions? env curr? c rev1 newCur c2
      rev2 hfile hlist hchk hnem hpost hchk2 hnem2
    obtain ⟨ms, hms⟩ := installedCore_resid name channel? revision? classic held?
      assertions? env curr? c rev1 newCur c2 rev2 hfile hlist hchk hnem hpost hchk2 hnem2
    have hret : (installed name channel? revision? classic held? assertions? false
        env).1 = ⟨name, some false,
        capitalize (instVerb curr?) ++ " the snap, but there are still pending changes: " ++
          jsonObj c2.pairs, c.prune c2⟩ := by
      unfold installed
      rw [hms]
    rw [hret]
    refine ⟨rfl, ?_, rfl⟩
    intro k hk
    obtain ⟨p, hp, rfl⟩ := List.mem_map.mp hk
    exact strHasSub_appendL _ (strHasSub_jsonObj_key hp)
  · intro name option? value? options? env data data2 hval hboth hopts hch hok hpost hres2
    obtain ⟨h1, h2, h3⟩ := option_managed_resid name option? value? options? env data
      data2 hval hboth hopts hch hok hpost hres2
    refine ⟨h1, ?_, h3⟩
    intro k hk
    rw [h2]
    rw [← optPairs_keys] at hk
    obtain ⟨p, hp, rfl⟩ := List.mem_map.mp hk
    exact strHasSub_appendL _ (strHasSub_jsonObj_key hp)
  · intro name connector target? env typ this curr currNew hside hconn hdis hconn2 hstill
    exact disconnected_resid name connector target? env typ this curr currNew hside hconn
      hdis hconn2 hstill

/-- Environment for the `installed` leg of the C5 witness: the channel
change does not stick (the post-apply list still reports `edge`). -/
def c5InstEnv : InstEnv :=
  ⟨true, true, .error ⟨"x"⟩, .ok [], .ok [], .ok (some ⟨"edge", "1", false⟩), .ok none,
   .ok (some ⟨"edge", "1", false⟩), .ok none⟩

/-- Environment for the `option_managed` leg of the C5 witness: setting
succeeds but the option does not appear in the re-query. -/
def c5OptEnv : OptEnv :=
  ⟨.ok [], fun _ => none, fun _ => none, .ok []⟩

/-- claim_C5 witness at concrete inputs for all three verifying operations. -/
theorem claim_C5_witness :
    ((installed "sn" (some "stable") none false none none false c5InstEnv).1.result =
      some false ∧
     strHasSub (installed "sn" (some "stable") none false none none false
       c5InstEnv).1.comment "channel" ∧
     (installed "sn" (some "stable") none false none none false c5InstEnv).1.changes =
       InstChanges.prune ⟨none, some ("edge", "stable"), none, none⟩
         ⟨none, some ("edge", "stable"), none, none⟩) ∧
    ((option_managed "n" (some "k") (some (some "v")) none false c5OptEnv).1.result =
      some false ∧
     strHasSub (option_managed "n" (some "k") (some (some "v")) none false
       c5OptEnv).1.comment "k") ∧
    ((disconnected "foo" "bar" none false c5Env).1.result = some false ∧
     (disconnected "foo" "bar" none false c5Env).1.comment =
       "Tried to disconnect some " ++ "slot" ++ "s, but some connections remained") := by
  have h1 := claim_C5.1 "sn" (some "stable") none false none none c5InstEnv
    (some ⟨"edge", "1", false⟩) ⟨none, some ("edge", "stable"), none, none⟩ none
    ⟨"edge", "1", false⟩ ⟨none, some ("edge", "stable"), none, none⟩ none
    (by decide) rfl rfl (by decide) rfl rfl (by decide)
  have h2 := claim_C5.2.1 "n" (some "k") (some (some "v")) none c5OptEnv [] []
    (by decide) (by decide) rfl (by decide) (by decide) rfl (by decide)
  have h3 := claim_C5.2.2 "foo" "bar" none c5Env "slot" "plug"
    [⟨"foo", "bar", "peerz", "entz"⟩] [⟨"foo", "bar", "peerz", "entz"⟩]
    rfl rfl (by decide) rfl (by decide)
  refine ⟨⟨h1.1, h1.2.1 "channel" (by decide), h1.2.2⟩,
    ⟨h2.1, h2.2.1 "k" ?_⟩, ⟨h3.1, h3.2.1⟩⟩
  decide

/-! ### C7: dry-run and planning-time errors -/

/-- Environment refuting the NotFound half of C7: the pre-query
`snap.options(name)` raises an error whose message contains
`"is not installed"`. -/
def c7OptEnv : OptEnv :=
  ⟨.error ⟨"the snap is not installed"⟩, fun _ => none, fun _ => none, .ok []⟩

/-- claim_C7 counterexample: `option_managed` in test (dry-run) mode where
the named snap does not exist (`snap.options` raises "... is not
installed"). The claim says this NotFound still produces result False; the
code instead suppresses it in test mode and returns result None (the
predicted-outcome value) with a warning comment, so the outcome is not
False. -/
theorem claim_C7_counterexample :
    (option_managed "n" (some "k") (some (some "v")) none true c7OptEnv).1.result =
      none ∧
    (option_managed "n" (some "k") (some (some "v")) none true c7OptEnv).1.result ≠
      some false ∧
    (option_managed "n" (some "k") (some (some "v")) none true c7OptEnv).1.comment =
      "the snap is not installed" ++ warnSuffix := by
  refine ⟨rfl, ?_, rfl⟩
  decide

/-- C7, corrected. Dry-run keeps planning-time errors fatal only partially:
in test mode an Ambiguous connection-target resolution still fails (conj.
1), a missing sub-resource (no such plug) still fails (conj. 2), and both
ValidationErrors of `option_managed` still fail (conj. 3 and 4) — but a
NotFound of the named snap itself ("... is not installed" raised by the
guarded pre-query) is suppressed in test mode to a None (predicted)
outcome with a warning comment (conj. 5), while remaining fatal outside
test mode (conj. 6); the same suppression applies to the slot lookup of
`connected` (conj. 7). -/
theorem claim_C7 :
    (∀ (name connector t iface : String) (slots : List String) (env : ConnEnv),
      hasColon t = false → env.plugIface = .ok (some iface) → env.slotsQ = .ok slots →
      slots.length ≠ 1 →
      (connected name connector (some t) true env).1.result = some false) ∧
    (∀ (name connector t : String) (env : ConnEnv),
      hasColon t = false → env.plugIface = .ok none →
      (connected name connector (some t) true env).1.result = some false ∧
      (connected name connector (some t) true env).1.comment =
        "The snap '" ++ name ++ "' does not have a plug named '" ++ connector ++ "'") ∧
    (∀ (name : String) (option? : Option String) (value? : Option (Option String))
      (options? : Option (List (String × Option String))) (env : OptEnv),
      ((strTruthy option? && value?.isSome) || optsTruthy options?) = false →
      (option_managed name option? value? options? true env).1.result = some false ∧
      (option_managed name option? value? options? true env).1.comment =
        "Either option and value or options are required") ∧
    (∀ (name : String) (option? : Option String) (value? : Option (Option String))
      (options? : Option (List (String × Option String))) (env : OptEnv),
      (strTruthy option? && value?.isSome) = true → optsTruthy options? = true →
      (option_managed name option? value? options? true env).1.result = some false ∧
      (option_managed name option? value? options? true env).1.comment =
        "Either specify option and value or options, not both variants") ∧
    (∀ (name : String) (option? : Option String) (value? : Option (Option String))
      (options? : Option (List (String × Option String))) (env : OptEnv) (e : Err),
      ((strTruthy option? && value?.isSome) || optsTruthy options?) = true →
      ((strTruthy option? && value?.isSome) && optsTruthy options?) = false →
      env.optsQ = .error e → e.notInstalled = true →
      (option_managed name option? value? options? true env).1.result = none ∧
      (option_managed name option? value? options? true env).1.comment =
        e.msg ++ warnSuffix) ∧
    (∀ (name : String) (option? : Option String) (value? : Option (Option String))
      (options? : Option (List (String × Option String))) (env : OptEnv) (e : Err),
      ((strTruthy option? && value?.isSome) || optsTruthy options?) = true →
      ((strTruthy option? && value?.isSome) && optsTruthy options?) = false →
      env.optsQ = .error e →
      (option_managed name option? value? options? false env).1.result = some false ∧
      (option_managed name option? value? options? false env).1.comment = e.msg) ∧
    (∀ (name connector t iface : String) (env : ConnEnv) (e : Err),
      hasColon t = false → env.plugIface = .ok (some iface) → env.slotsQ = .error e →
      e.notInstalled = true →
      (connected name connector (some t) true env).1.result = none ∧
      (connected name connector (some t) true env).1.comment =
        e.msg ++ warnSuffix) := by
  refine ⟨?_, ?_, ?_, ?_, ?_, ?_, ?_⟩
  · intro name connector t iface slots env hbare hplug hslots hlen
    unfold connected connectedCore connResolve
    rw [hplug, hslots]
    simp [hbare, hlen]
  · intro name connector t env hbare hplug
    unfold connected connectedCore connResolve
    rw [hplug]
    simp [hbare]
  · intro name option? value? options? env hval
    unfold option_managed option_managedCore
    simp [hval]
  · intro name option? value? options? env hsingle hopts
    unfold option_managed option_managedCore
    simp [hsingle, hopts]
  · intro name option? value? options? env e hval hboth hopts hni
    unfold option_managed option_managedCore
    rw [hopts]
    simp [hval, hboth, hni]
  · intro name option? value? options? env e hval hboth hopts
    unfold option_managed option_managedCore
    rw [hopts]
    simp [hval, hboth]
  · intro name connector t iface env e hbare hplug hslots hni
    unfold connected connectedCore connResolve
    rw [hplug, hslots]
    simp [hbare, hni]

/-- claim_C7 witness at concrete inputs for all seven conjuncts. -/
theorem claim_C7_witness :
    (connected "foo" "plg" (some "peer") true
      ⟨.ok (some "ifc"), .ok ["s1", "s2"], .ok [], .ok []⟩).1.result = some false ∧
    ((connected "foo" "plg" (some "peer") true
      ⟨.ok none, .ok [], .ok [], .ok []⟩).1.result = some false ∧
     (connected "foo" "plg" (some "peer") true
      ⟨.ok none, .ok [], .ok [], .ok []⟩).1.comment =
        "The snap '" ++ "foo" ++ "' does not have a plug named '" ++ "plg" ++ "'") ∧
    ((option_managed "n" none none none true c5OptEnv).1.result = some false ∧
     (option_managed "n" none none none true c5OptEnv).1.comment =
       "Either option and value or options are required") ∧
    ((option_managed "n" (some "k") (some (some "v")) (some [("j", some "w")]) true
       c5OptEnv).1.result = some false ∧
     (option_managed "n" (some "k") (some (some "v")) (some [("j", some "w")]) true
       c5OptEnv).1.comment =
       "Either specify option and value or options, not both variants") ∧
    ((option_managed "n" (some "k") (some (some "v")) none true c7OptEnv).1.result =
      none ∧
     (option_managed "n" (some "k") (some (some "v")) none true c7OptEnv).1.comment =
       "the snap is not installed" ++ warnSuffix) ∧
    ((option_managed "n" (some "k") (some (some "v")) none false c7OptEnv).1.result =
      some false ∧
     (option_managed "n" (some "k") (some (some "v")) none false c7OptEnv).1.comment =
       "the snap is not installed") ∧
    ((connected "foo" "plg" (some "peer") true
      ⟨.ok (some "ifc"), .error ⟨"the snap is not installed"⟩, .ok [], .ok []⟩).1.result =
        none ∧
     (connected "foo" "plg" (some "peer") true
      ⟨.ok (some "ifc"), .error ⟨"the snap is not installed"⟩, .ok [], .ok []⟩).1.comment =
        "the snap is not installed" ++ warnSuffix) :=
  ⟨claim_C7.1 "foo" "plg" "peer" "ifc" ["s1", "s2"]
    ⟨.ok (some "ifc"), .ok ["s1", "s2"], .ok [], .ok []⟩ (by decide) rfl rfl (by decide),
   claim_C7.2.1 "foo" "plg" "peer" ⟨.ok none, .ok [], .ok [], .ok []⟩ (by decide) rfl,
   claim_C7.2.2.1 "n" none none none c5OptEnv (by decide),
   claim_C7.2.2.2.1 "n" (some "k") (some (some "v")) (some [("j", some "w")]) c5OptEnv
     (by decide) (by decide),
   claim_C7.2.2.2.2.1 "n" (some "k") (some (some "v")) none c7OptEnv
     ⟨"the snap is not installed"⟩ (by decide) (by decide) rfl (by decide),
   claim_C7.2.2.2.2.2.1 "n" (some "k") (some (some "v")) none c7OptEnv
     ⟨"the snap is not installed"⟩ (by decide) (by decide) rfl,
   claim_C7.2.2.2.2.2.2 "foo" "plg" "peer" "ifc"
     ⟨.ok (some "ifc"), .error ⟨"the snap is not installed"⟩, .ok [], .ok []⟩
     ⟨"the snap is not installed"⟩ (by decide) rfl rfl (by decide)⟩

end Snap
